import Mathlib

/-!
Shallow embedding of the ash-pos-backend Sale Transaction Engine
(`sale.service.ts`), the discount evaluator (`discount.service.ts`,
function `calculateDiscounts`) and the promotion evaluator
(`promotion.service.ts`, functions `checkApplicable`,
`checkPromotionConditions`, `calculateDiscount`).

Modelling conventions:
* Monetary amounts (`DECIMAL` columns, JS `number`) are rationals `ℚ`;
  quantities, stock and loyalty points (`INT` columns) are integers `ℤ`;
  row identifiers are `Nat`.
* JavaScript truthiness on optional numbers/strings is modelled explicitly:
  `0`, `""`, `null`/`undefined` are falsy (`strT`, `numT` below).
* A database transaction is one pure function `DB → Except AppErr …`;
  `COMMIT` keeps the returned state, `ROLLBACK` on a thrown error keeps the
  caller's state (`applyResult` / `applyCreate`).
* `bcrypt.compare(pin, hash)` is modelled as equality of the supplied PIN
  with the stored secret (the stored value stands for the hash).
* Cosmetic fields with no bearing on any claim (display name transform of
  government discount rows, invoice numbers, timestamps) are not modelled.
-/

namespace AshPos

/-- JS truthiness for an optional string: `null`/`undefined` and `""` are falsy. -/
def strT : Option String → Bool
  | none => false
  | some s => s ≠ ""

/-- JS truthiness for an optional number: `null`/`undefined` and `0` are falsy. -/
def numT : Option ℚ → Bool
  | none => false
  | some q => q ≠ 0

/-- `x || null` for an optional string field: `""` collapses to `null`. -/
def strOrNull (o : Option String) : Option String :=
  match o with
  | none => none
  | some s => if s = "" then none else some s

/-- Typed errors of `shared/errors/AppError.ts` that the engine throws. -/
inductive AppErr where
  | notFound (msg : String)
  | badRequest (msg : String)
  | unauthorized (msg : String)
  | forbidden (msg : String)
deriving DecidableEq

/-- Kind test: is the error a `BadRequestError`? -/
def AppErr.isBadRequest : AppErr → Bool
  | .badRequest _ => true
  | _ => false

/-- Kind test: is the error a `NotFoundError`? -/
def AppErr.isNotFound : AppErr → Bool
  | .notFound _ => true
  | _ => false

/-- Kind test: is the error an `UnauthorizedError`? -/
def AppErr.isUnauthorized : AppErr → Bool
  | .unauthorized _ => true
  | _ => false

/-- A `products` row (columns read by the sale engine). -/
structure Product where
  pid : Nat
  name : String
  sku : String
  sellingPrice : ℚ
  costPrice : ℚ
  currentStock : ℤ
  trackInventory : Bool
  isTaxable : Bool
  taxRate : ℚ
  isVatExemptEligible : Bool
  allowBackorder : Bool
  deleted : Bool
deriving DecidableEq

/-- A `customers` row joined with its membership tier
(`points_multiplier` is `none` when the customer has no tier). -/
structure Customer where
  cid : Nat
  loyaltyPoints : ℤ
  pointsMultiplier : Option ℚ
  lifetimeSpend : ℚ
  totalTransactions : ℤ
deriving DecidableEq

/-- A `users` row (columns read by void/refund authorization).
`supervisorPinSecret` stands for `supervisor_pin_hash`; a successful
`bcrypt.compare` is modelled as equality with the supplied PIN. -/
structure UserAcct where
  uid : Nat
  supervisorPinSecret : Option String
  canAuthorizeVoid : Bool
  canAuthorizeRefund : Bool
  isActive : Bool
deriving DecidableEq

/-- A `sales` row as inserted/updated by the service. -/
structure SaleRec where
  sid : Nat
  customerId : Option Nat
  userId : Nat
  subtotal : ℚ
  discountAmount : ℚ
  taxAmount : ℚ
  totalAmount : ℚ
  paymentMethod : String
  amountTendered : Option ℚ
  changeAmount : Option ℚ
  discountType : Option String
  isVatExempt : Bool
  vatExemptReason : Option String
  vatableAmount : ℚ
  vatAmount : ℚ
  vatExemptAmount : ℚ
  pointsEarned : ℤ
  pointsRedeemed : ℤ
  pointsValueRedeemed : ℚ
  notes : Option String
  status : String
  voidedBy : Option Nat
  voidAuthorizedBy : Option Nat
  voidReason : Option String
  refundedBy : Option Nat
  refundAuthorizedBy : Option Nat
  refundReason : Option String
  refundAmount : ℚ
deriving DecidableEq

/-- A `sale_items` row. -/
structure SaleItemRow where
  saleId : Nat
  productId : Nat
  variantId : Option Nat
  productName : String
  productSku : String
  quantity : ℤ
  unitPrice : ℚ
  costPrice : ℚ
  discountAmount : ℚ
  discountType : Option String
  discountPercentage : Option ℚ
  isVatExempt : Bool
  taxAmount : ℚ
  subtotal : ℚ
  totalPrice : ℚ
deriving DecidableEq

/-- A `stock_movements` ledger row. -/
structure StockMove where
  productId : Nat
  movementType : String
  quantity : ℤ
  quantityBefore : ℤ
  quantityAfter : ℤ
  referenceType : String
  referenceId : Option Nat
  notes : Option String
  createdBy : Nat
deriving DecidableEq

/-- A `loyalty_points_history` ledger row. -/
structure LoyaltyEntry where
  customerId : Nat
  transactionType : String
  points : ℤ
  balanceAfter : ℤ
  referenceType : String
  referenceId : Nat
  createdBy : Nat
deriving DecidableEq

/-- A `sale_payments` row (split payments). -/
structure SalePaymentRow where
  saleId : Nat
  method : String
  amount : ℚ
  reference : Option String
deriving DecidableEq

/-- A `sale_discounts` row (the display-name transform of the source is
cosmetic and not modelled; `name` keeps the raw reason). -/
structure SaleDiscountRow where
  saleId : Nat
  discountType : String
  name : String
  discountAmount : ℚ
  isGovernmentMandated : Bool
  customerIdNumber : Option String
deriving DecidableEq

/-- The relational store visible to the sale engine. -/
structure DB where
  products : List Product
  customers : List Customer
  users : List UserAcct
  sales : List SaleRec
  saleItems : List SaleItemRow
  stockMovements : List StockMove
  loyaltyHistory : List LoyaltyEntry
  salePayments : List SalePaymentRow
  saleDiscounts : List SaleDiscountRow
  nextSaleId : Nat
deriving DecidableEq

/-- `SELECT … FROM products WHERE id = $1 AND deleted_at IS NULL`. -/
def findProduct (db : DB) (pid : Nat) : Option Product :=
  db.products.find? (fun p => p.pid = pid ∧ ¬p.deleted)

/-- `SELECT current_stock FROM products WHERE id = $1` (no soft-delete filter). -/
def findProductAny (db : DB) (pid : Nat) : Option Product :=
  db.products.find? (fun p => p.pid = pid)

/-- `SELECT … FROM customers WHERE id = $1`. -/
def findCustomer (db : DB) (cid : Nat) : Option Customer :=
  db.customers.find? (fun c => c.cid = cid)

/-- `SELECT … FROM users WHERE id = $1`. -/
def findUser (db : DB) (uid : Nat) : Option UserAcct :=
  db.users.find? (fun u => u.uid = uid)

/-- `SELECT * FROM sales WHERE id = $1`. -/
def findSale (db : DB) (sid : Nat) : Option SaleRec :=
  db.sales.find? (fun s => s.sid = sid)

/-- `UPDATE products SET current_stock = current_stock + $1 WHERE id = $2`. -/
def bumpStock (db : DB) (pid : Nat) (delta : ℤ) : DB :=
  { db with
    products := db.products.map (fun p =>
      if p.pid = pid then { p with currentStock := p.currentStock + delta } else p) }

/-- Current stock of a product (0 when the row is absent); observation
used by the stock-restoration statements. -/
def stockOf (db : DB) (pid : Nat) : ℤ :=
  match findProductAny db pid with
  | some p => p.currentStock
  | none => 0

/-- A cart line of the create request (`SaleItem` in `sale.service.ts`). -/
structure SaleItem where
  productId : Nat
  variantId : Option Nat
  quantity : ℤ
  unitPrice : ℚ
  discountAmount : Option ℚ
  discountType : Option String
  discountPercentage : Option ℚ
deriving DecidableEq

/-- One element of `CreateSaleData.payments`. -/
structure PaymentInput where
  method : String
  amount : ℚ
  reference : Option String
deriving DecidableEq

/-- The create request (`CreateSaleData` in `sale.service.ts`).
Optional booleans are collapsed to `Bool` (only their truthiness is read). -/
structure CreateSaleData where
  customerId : Option Nat
  items : List SaleItem
  paymentMethod : String
  amountTendered : Option ℚ
  payments : Option (List PaymentInput)
  discountType : Option String
  discountAmount : Option ℚ
  isVatExempt : Bool
  vatExemptReason : Option String
  customerIdNumber : Option String
  pointsToRedeem : Option ℤ
  notes : Option String
deriving DecidableEq

/-- One entry of the in-memory `itemsData` array built by `create`. -/
structure ItemData where
  productId : Nat
  variantId : Option Nat
  productName : String
  productSku : String
  quantity : ℤ
  unitPrice : ℚ
  costPrice : ℚ
  discountAmount : ℚ
  discountType : Option String
  discountPercentage : Option ℚ
  isVatExempt : Bool
  taxAmount : ℚ
  subtotal : ℚ
  totalPrice : ℚ
deriving DecidableEq

/-- The stock deduction and `stock_movements` insert of one tracked cart
line (lines 147–160 of `sale.service.ts`). -/
def saleStep (u : Nat) (p : Product) (itm : SaleItem) (db : DB) : DB :=
  let moved := bumpStock db p.pid (-itm.quantity)
  { moved with
    stockMovements := moved.stockMovements ++
      [{ productId := p.pid
         movementType := "sale"
         quantity := -itm.quantity
         quantityBefore := p.currentStock
         quantityAfter := p.currentStock - itm.quantity
         referenceType := "sale"
         referenceId := none
         notes := none
         createdBy := u }] }

/-- The per-line loop of `create` (lines 95–161 of `sale.service.ts`):
product lookup, stock check, per-line pricing/tax, stock deduction and
`stock_movements` insert, threading the transaction state.
Returns the state together with the accumulated `subtotal`, `totalTax`
and the `itemsData` list. -/
def processItems (u : Nat) (vatExempt : Bool) :
    DB → List SaleItem → Except AppErr (DB × ℚ × ℚ × List ItemData)
  | db, [] => .ok (db, 0, 0, [])
  | db, itm :: rest =>
    match findProduct db itm.productId with
    | none => .error (.badRequest ("Product not found: " ++ toString itm.productId))
    | some p =>
      if p.trackInventory ∧ p.currentStock < itm.quantity then
        .error (.badRequest ("Insufficient stock for " ++ p.name ++
          ". Available: " ++ toString p.currentStock))
      else
        let unitPrice := if itm.unitPrice = 0 then p.sellingPrice else itm.unitPrice
        let itemSubtotal := unitPrice * (itm.quantity : ℚ)
        let itemDiscount := itm.discountAmount.getD 0
        let itemTax :=
          if p.isTaxable ∧ ¬vatExempt then
            (itemSubtotal - itemDiscount) * (p.taxRate / 100)
          else 0
        let entry : ItemData :=
          { productId := p.pid
            variantId := itm.variantId
            productName := p.name
            productSku := p.sku
            quantity := itm.quantity
            unitPrice := unitPrice
            costPrice := p.costPrice
            discountAmount := itemDiscount
            discountType := itm.discountType
            discountPercentage := itm.discountPercentage
            isVatExempt := vatExempt
            taxAmount := itemTax
            subtotal := itemSubtotal
            totalPrice := itemSubtotal - itemDiscount + itemTax }
        match processItems u vatExempt
            (if p.trackInventory then saleStep u p itm db else db) rest with
        | .error e => .error e
        | .ok (db'', s, t, l) => .ok (db'', itemSubtotal + s, itemTax + t, entry :: l)

/-- The loyalty-points step of `create` (lines 166–194): returns
`(pointsEarned, pointsRedeemed, pointsValue)` or the insufficient-points
error. -/
def computePoints (db : DB) (data : CreateSaleData) (totalAmount : ℚ) :
    Except AppErr (ℤ × ℤ × ℚ) :=
  match data.customerId with
  | none => .ok (0, data.pointsToRedeem.getD 0, 0)
  | some cid =>
    match findCustomer db cid with
    | none => .ok (0, data.pointsToRedeem.getD 0, 0)
    | some c =>
      if data.pointsToRedeem.getD 0 > 0 then
        if data.pointsToRedeem.getD 0 > c.loyaltyPoints then
          .error (.badRequest ("Insufficient points. Available: " ++
            toString c.loyaltyPoints))
        else
          .ok (Rat.floor ((totalAmount / 100) * c.pointsMultiplier.getD 1),
            data.pointsToRedeem.getD 0, ((data.pointsToRedeem.getD 0 : ℤ) : ℚ))
      else
        .ok (Rat.floor ((totalAmount / 100) * c.pointsMultiplier.getD 1),
          data.pointsToRedeem.getD 0, 0)

/-- Convert an `itemsData` entry into its `sale_items` row. -/
def ItemData.toRow (e : ItemData) (sid : Nat) : SaleItemRow :=
  { saleId := sid
    productId := e.productId
    variantId := e.variantId
    productName := e.productName
    productSku := e.productSku
    quantity := e.quantity
    unitPrice := e.unitPrice
    costPrice := e.costPrice
    discountAmount := e.discountAmount
    discountType := e.discountType
    discountPercentage := e.discountPercentage
    isVatExempt := e.isVatExempt
    taxAmount := e.taxAmount
    subtotal := e.subtotal
    totalPrice := e.totalPrice }

/-- The per-row effect of the `UPDATE customers` of `create` (lines
280–288). -/
def custUpd (cid : Nat) (pointsEarned pointsRedeemed : ℤ) (totalAmount : ℚ)
    (c : Customer) : Customer :=
  if c.cid = cid then
    { c with
      loyaltyPoints := c.loyaltyPoints + pointsEarned - pointsRedeemed
      lifetimeSpend := c.lifetimeSpend + totalAmount
      totalTransactions := c.totalTransactions + 1 }
  else c

/-- The customer-stats update and loyalty-history inserts of `create`
(lines 278–308). The `INSERT … SELECT … FROM customers` only produces a
row when the customer exists, and reads the balance after the `UPDATE`
(the two sequential inserts of the source only touch
`loyalty_points_history`, so both read the same post-update balance). -/
def updateCustomerStats (db : DB) (cid : Nat) (pointsEarned pointsRedeemed : ℤ)
    (totalAmount : ℚ) (sid u : Nat) : DB :=
  let cs := db.customers.map (custUpd cid pointsEarned pointsRedeemed totalAmount)
  let earnRows : List LoyaltyEntry :=
    if pointsEarned > 0 then
      match cs.find? (fun c => c.cid = cid) with
      | some c' =>
        [{ customerId := cid, transactionType := "earn", points := pointsEarned
           balanceAfter := c'.loyaltyPoints, referenceType := "sale"
           referenceId := sid, createdBy := u }]
      | none => []
    else []
  let redeemRows : List LoyaltyEntry :=
    if pointsRedeemed > 0 then
      match cs.find? (fun c => c.cid = cid) with
      | some c' =>
        [{ customerId := cid, transactionType := "redeem", points := -pointsRedeemed
           balanceAfter := c'.loyaltyPoints, referenceType := "sale"
           referenceId := sid, createdBy := u }]
      | none => []
    else []
  { db with
    customers := cs
    loyaltyHistory := db.loyaltyHistory ++ earnRows ++ redeemRows }

/-- The `sales` row built by `create` (INSERT of lines 196–226; `status`
is the schema default `completed`). `subtotal`/`totalTax` come from the
item loop, `pe`/`pr`/`pv` from the loyalty step. -/
def mkSale (data : CreateSaleData) (u sid : Nat) (subtotal totalTax : ℚ)
    (pe pr : ℤ) (pv : ℚ) : SaleRec :=
  let totalDiscount := data.discountAmount.getD 0
  let totalAmount := subtotal - totalDiscount + totalTax
  let changeAmount :=
    match data.amountTendered with
    | some t => if t = 0 then 0 else t - totalAmount
    | none => 0
  { sid := sid
    customerId := data.customerId
    userId := u
    subtotal := subtotal
    discountAmount := totalDiscount
    taxAmount := totalTax
    totalAmount := totalAmount - pv
    paymentMethod := data.paymentMethod
    amountTendered :=
      match data.amountTendered with
      | some t => if t = 0 then none else some t
      | none => none
    changeAmount := if changeAmount > 0 then some changeAmount else none
    discountType := strOrNull data.discountType
    isVatExempt := data.isVatExempt
    vatExemptReason := strOrNull data.vatExemptReason
    vatableAmount := if data.isVatExempt then 0 else subtotal - totalDiscount
    vatAmount := totalTax
    vatExemptAmount := if data.isVatExempt then subtotal - totalDiscount else 0
    pointsEarned := pe
    pointsRedeemed := pr
    pointsValueRedeemed := pv
    notes := strOrNull data.notes
    status := "completed"
    voidedBy := none, voidAuthorizedBy := none, voidReason := none
    refundedBy := none, refundAuthorizedBy := none, refundReason := none
    refundAmount := 0 }

/-- The persistence tail of `create` (lines 196–312): insert the sale,
its items, split payments, the government `sale_discounts` row, and run
the customer-stats update. -/
def persistSale (data : CreateSaleData) (u : Nat) (db1 : DB)
    (subtotal totalTax : ℚ) (itemsData : List ItemData)
    (pe pr : ℤ) (pv : ℚ) : DB × SaleRec :=
  let totalDiscount := data.discountAmount.getD 0
  let totalAmount := subtotal - totalDiscount + totalTax
  let sid := db1.nextSaleId
  let sale := mkSale data u sid subtotal totalTax pe pr pv
  let db2 :=
    { db1 with
      sales := db1.sales ++ [sale]
      saleItems := db1.saleItems ++ itemsData.map (fun e => e.toRow sid)
      nextSaleId := sid + 1 }
  let db3 :=
    if data.paymentMethod = "split" then
      match data.payments with
      | some ps =>
        { db2 with
          salePayments := db2.salePayments ++ ps.map (fun pay =>
            { saleId := sid, method := pay.method, amount := pay.amount
              reference := pay.reference }) }
      | none => db2
    else db2
  let db4 :=
    if data.isVatExempt ∧ strT data.vatExemptReason then
      { db3 with
        saleDiscounts := db3.saleDiscounts ++
          [{ saleId := sid
             discountType := data.vatExemptReason.getD ""
             name := data.vatExemptReason.getD ""
             discountAmount := totalDiscount
             isGovernmentMandated := true
             customerIdNumber := data.customerIdNumber }] }
    else db3
  let db5 :=
    match data.customerId with
    | some cid => updateCustomerStats db4 cid pe pr totalAmount sid u
    | none => db4
  (db5, sale)

/-- `create` (`sale.service.ts` lines 83–319): the whole sale-creation
transaction. On success returns the post-commit state and the inserted
`sales` row; a thrown error rolls the transaction back (the caller keeps
its state, see `applyCreate`). -/
def create (data : CreateSaleData) (u : Nat) (db : DB) :
    Except AppErr (DB × SaleRec) :=
  match processItems u data.isVatExempt db data.items with
  | .error e => .error e
  | .ok (db1, subtotal, totalTax, itemsData) =>
    match computePoints db1 data
        (subtotal - data.discountAmount.getD 0 + totalTax) with
    | .error e => .error e
    | .ok (pe, pr, pv) =>
      .ok (persistSale data u db1 subtotal totalTax itemsData pe pr pv)

/-- `COMMIT`/`ROLLBACK` for operations returning only a state. -/
def applyResult (db : DB) : Except AppErr DB → DB
  | .ok db' => db'
  | .error _ => db

/-- `COMMIT`/`ROLLBACK` for `create`. -/
def applyCreate (db : DB) : Except AppErr (DB × SaleRec) → DB
  | .ok (db', _) => db'
  | .error _ => db

/-- One row of the stock-restoration loop (e.g. `voidSale` lines
610–626): add the quantity back — with no `track_inventory` check — and
append a `return` movement whose before/after quantities are re-read
after the update (the `none` case would crash in JS; it is unreachable
because sale items reference existing products). -/
def returnStep (refType notesText : String) (actor saleId : Nat)
    (item : SaleItemRow) (db : DB) : DB :=
  let dbA := bumpStock db item.productId item.quantity
  match findProductAny dbA item.productId with
  | some p =>
    { dbA with
      stockMovements := dbA.stockMovements ++
        [{ productId := item.productId
           movementType := "return"
           quantity := item.quantity
           quantityBefore := p.currentStock - item.quantity
           quantityAfter := p.currentStock
           referenceType := refType
           referenceId := some saleId
           notes := some notesText
           createdBy := actor }] }
  | none => dbA

/-- The stock-restoration loop shared verbatim by the four void/refund
functions (e.g. `voidSale` lines 604–627), over EVERY `sale_items` row of
the sale. -/
def restoreStock (refType notesText : String) (actor : Nat) (saleId : Nat) :
    DB → List SaleItemRow → DB
  | db, [] => db
  | db, item :: rest =>
    restoreStock refType notesText actor saleId
      (returnStep refType notesText actor saleId item db) rest

/-- The per-row effect of the `UPDATE customers` reversal of void/refund
(e.g. `voidSale` lines 631–638). -/
def custRev (cid : Nat) (sale : SaleRec) (c : Customer) : Customer :=
  if c.cid = cid then
    { c with
      loyaltyPoints := c.loyaltyPoints - sale.pointsEarned + sale.pointsRedeemed
      lifetimeSpend := c.lifetimeSpend - sale.totalAmount
      totalTransactions := c.totalTransactions - 1 }
  else c

/-- The customer-reversal update shared by the four void/refund functions
(e.g. `voidSale` lines 630–639). -/
def reverseCustomer (db : DB) (sale : SaleRec) : DB :=
  match sale.customerId with
  | none => db
  | some cid =>
    { db with customers := db.customers.map (custRev cid sale) }

/-- The per-row effect of the void `UPDATE sales` (lines 593–602). -/
def voidUpd (saleId : Nat) (reason : String) (authorizedBy voidedBy : Nat)
    (s : SaleRec) : SaleRec :=
  if s.sid = saleId then
    { s with
      status := "voided"
      voidedBy := some voidedBy
      voidAuthorizedBy := some authorizedBy
      voidReason := some reason }
  else s

/-- The per-row effect of the refund `UPDATE sales` (lines 791–801),
including `refund_amount = total_amount`. -/
def refundUpd (saleId : Nat) (reason : String) (authorizedBy refundedBy : Nat)
    (s : SaleRec) : SaleRec :=
  if s.sid = saleId then
    { s with
      status := "refunded"
      refundedBy := some refundedBy
      refundAuthorizedBy := some authorizedBy
      refundReason := some reason
      refundAmount := s.totalAmount }
  else s

/-- The effects of a void once all checks passed (`voidSale` lines
592–639): status/audit update, stock restoration, customer reversal. -/
def voidApply (saleId : Nat) (reason : String) (authorizedBy voidedBy : Nat)
    (db : DB) (sale : SaleRec) : DB :=
  let db1 := { db with sales := db.sales.map (voidUpd saleId reason authorizedBy voidedBy) }
  let items := db1.saleItems.filter (fun r => r.saleId = saleId)
  let db2 := restoreStock "void" ("Void: " ++ reason) voidedBy saleId db1 items
  reverseCustomer db2 sale

/-- The effects of a refund once all checks passed (`refundSale` lines
790–837). -/
def refundApply (saleId : Nat) (reason : String) (authorizedBy refundedBy : Nat)
    (db : DB) (sale : SaleRec) : DB :=
  let db1 := { db with sales := db.sales.map (refundUpd saleId reason authorizedBy refundedBy) }
  let items := db1.saleItems.filter (fun r => r.saleId = saleId)
  let db2 := restoreStock "refund" ("Refund: " ++ reason) refundedBy saleId db1 items
  reverseCustomer db2 sale

/-- Sale fetch plus status guard shared by all four void/refund paths
(e.g. `voidSale` lines 578–589). `verb` is "void" or "refund". -/
def fetchCompletedSale (verb : String) (saleId : Nat) (db : DB) :
    Except AppErr SaleRec :=
  match findSale db saleId with
  | none => .error (.notFound "Sale not found")
  | some sale =>
    if sale.status ≠ "completed" then
      .error (.badRequest ("Cannot " ++ verb ++ " a " ++ sale.status ++ " sale"))
    else .ok sale

/-- The supervisor-verification block of `voidSale` (lines 553–575):
existence, `can_authorize_void` capability, PIN set, PIN match — in that
order, with no check of the account's active status. -/
def verifySupervisorVoid (db : DB) (supervisorId : Nat) (pin : String) :
    Except AppErr UserAcct :=
  match findUser db supervisorId with
  | none => .error (.notFound "Supervisor not found")
  | some sup =>
    if ¬sup.canAuthorizeVoid then
      .error (.forbidden "User not authorized to approve voids")
    else if ¬strT sup.supervisorPinSecret then
      .error (.badRequest "Supervisor PIN not set")
    else if sup.supervisorPinSecret ≠ some pin then
      .error (.badRequest "Invalid supervisor PIN")
    else .ok sup

/-- The supervisor-verification block of `refundSale` (lines 751–773). -/
def verifySupervisorRefund (db : DB) (supervisorId : Nat) (pin : String) :
    Except AppErr UserAcct :=
  match findUser db supervisorId with
  | none => .error (.notFound "Supervisor not found")
  | some sup =>
    if ¬sup.canAuthorizeRefund then
      .error (.forbidden "User not authorized to approve refunds")
    else if ¬strT sup.supervisorPinSecret then
      .error (.badRequest "Supervisor PIN not set")
    else if sup.supervisorPinSecret ≠ some pin then
      .error (.badRequest "Invalid supervisor PIN")
    else .ok sup

/-- `voidSale` (`sale.service.ts` lines 542–649): supervisor-PIN
authorized void. -/
def voidSale (saleId : Nat) (reason : String) (supervisorId : Nat)
    (supervisorPin : String) (voidedBy : Nat) (db : DB) : Except AppErr DB :=
  match verifySupervisorVoid db supervisorId supervisorPin with
  | .error e => .error e
  | .ok _ =>
    match fetchCompletedSale "void" saleId db with
    | .error e => .error e
    | .ok sale => .ok (voidApply saleId reason supervisorId voidedBy db sale)

/-- `voidSaleSelfAuthorized` (lines 654–735): void for operators who can
self-authorize; `void_authorized_by` is the operator themself. -/
def voidSaleSelfAuthorized (saleId : Nat) (reason : String) (voidedBy : Nat)
    (db : DB) : Except AppErr DB :=
  match fetchCompletedSale "void" saleId db with
  | .error e => .error e
  | .ok sale => .ok (voidApply saleId reason voidedBy voidedBy db sale)

/-- `refundSale` (lines 740–848): supervisor-PIN authorized refund. -/
def refundSale (saleId : Nat) (reason : String) (supervisorId : Nat)
    (supervisorPin : String) (refundedBy : Nat) (db : DB) : Except AppErr DB :=
  match verifySupervisorRefund db supervisorId supervisorPin with
  | .error e => .error e
  | .ok _ =>
    match fetchCompletedSale "refund" saleId db with
    | .error e => .error e
    | .ok sale => .ok (refundApply saleId reason supervisorId refundedBy db sale)

/-- `refundSaleSelfAuthorized` (lines 853–935). -/
def refundSaleSelfAuthorized (saleId : Nat) (reason : String) (refundedBy : Nat)
    (db : DB) : Except AppErr DB :=
  match fetchCompletedSale "refund" saleId db with
  | .error e => .error e
  | .ok sale => .ok (refundApply saleId reason refundedBy refundedBy db sale)

/-- A `discount_settings` row (`discount.service.ts`). -/
structure DiscountSetting where
  discountType : String
  name : String
  percentage : ℚ
  isVatExempt : Bool
  isActive : Bool
deriving DecidableEq

/-- A `membership_tiers` row (fields read by `calculateDiscounts`). -/
structure MembershipTier where
  tid : Nat
  name : String
  discountPercentage : ℚ
  pointsMultiplier : ℚ
  isActive : Bool
deriving DecidableEq

/-- One entry of the `appliedDiscounts` array returned by
`calculateDiscounts`. -/
structure AppliedDiscount where
  type : String
  name : String
  percentage : ℚ
  amount : ℚ
deriving DecidableEq

/-- The record returned by `calculateDiscounts`. -/
structure DiscountResult where
  governmentDiscount : ℚ
  membershipDiscount : ℚ
  isVatExempt : Bool
  appliedDiscounts : List AppliedDiscount
deriving DecidableEq

/-- `calculateDiscounts` (`discount.service.ts` lines 422–507).
`settings` and `tiers` stand for the `discount_settings` and
`membership_tiers` tables; the source's unused `customerId` parameter is
omitted. Senior-citizen is tried first and PWD only in the `else` branch;
the membership discount is computed on `subtotal - governmentDiscount`. -/
def calculateDiscounts (settings : List DiscountSetting)
    (tiers : List MembershipTier) (subtotal : ℚ)
    (isSeniorCitizen isPwd : Bool) (membershipTierId : Option Nat) :
    DiscountResult :=
  let govDiscounts := settings.filter (fun d =>
    d.isActive ∧ (d.discountType = "senior_citizen" ∨ d.discountType = "pwd"))
  let gov :
      ℚ × Bool × List AppliedDiscount :=
    if isSeniorCitizen then
      match govDiscounts.find? (fun d => d.discountType = "senior_citizen") with
      | some sc =>
        let amt := subtotal * (sc.percentage / 100)
        (amt, sc.isVatExempt,
          [{ type := "senior_citizen", name := sc.name
             percentage := sc.percentage, amount := amt }])
      | none => (0, false, [])
    else if isPwd then
      match govDiscounts.find? (fun d => d.discountType = "pwd") with
      | some pw =>
        let amt := subtotal * (pw.percentage / 100)
        (amt, pw.isVatExempt,
          [{ type := "pwd", name := pw.name
             percentage := pw.percentage, amount := amt }])
      | none => (0, false, [])
    else (0, false, [])
  let governmentDiscount := gov.1
  let mem : ℚ × List AppliedDiscount :=
    match membershipTierId with
    | none => (0, [])
    | some tid =>
      match tiers.find? (fun t => t.tid = tid ∧ t.isActive) with
      | none => (0, [])
      | some tier =>
        let discountableAmount := subtotal - governmentDiscount
        let md := discountableAmount * (tier.discountPercentage / 100)
        if md > 0 then
          (md, [{ type := "membership", name := tier.name
                  percentage := tier.discountPercentage, amount := md }])
        else (md, [])
  { governmentDiscount := governmentDiscount
    membershipDiscount := mem.1
    isVatExempt := gov.2.1
    appliedDiscounts := gov.2.2 ++ mem.2 }

/-- A `promotions` row as mapped by `mapPromotion`
(`promotion.service.ts`); fields not read by `checkApplicable`,
`checkPromotionConditions` or `calculateDiscount` are omitted.
`mapPromotion` turns a zero `max_discount_amount`/`min_purchase_amount`
into `undefined`, modelled here by JS truthiness at the use sites. -/
structure Promotion where
  pid : Nat
  name : String
  code : Option String
  promotionType : String
  discountValue : ℚ
  buyQuantity : Option ℤ
  getQuantity : Option ℤ
  minPurchaseAmount : Option ℚ
  maxDiscountAmount : Option ℚ
  usageLimit : Option ℤ
  currentUsage : ℤ
  targetType : String
  targetProducts : Option (List Nat)
  targetCategories : Option (List Nat)
  targetCustomers : Option (List Nat)
  targetMembershipTiers : Option (List Nat)
  startDate : ℤ
  endDate : ℤ
  isStackable : Bool
  priority : ℤ
  isActive : Bool
deriving DecidableEq

/-- One cart line passed to `checkApplicable`. -/
structure CartItem where
  productId : Nat
  categoryId : Option Nat
  quantity : ℤ
  price : ℚ
deriving DecidableEq

/-- The `WHERE` clause of the active-promotions query in `checkApplicable`
(lines 382–389): active flag, date window around `now`, usage cap. -/
def isActiveCandidate (now : ℤ) (promo : Promotion) : Bool :=
  promo.isActive &&
    decide (promo.startDate ≤ now) && decide (now ≤ promo.endDate) &&
    (match promo.usageLimit with
     | none => true
     | some lim => decide (promo.currentUsage < lim))

/-- `checkPromotionConditions` (lines 488–532): minimum purchase and
target matching; the `groups` target is not implemented in the source. -/
def checkPromotionConditions (promo : Promotion) (items : List CartItem)
    (subtotal : ℚ) (customerId : Option Nat) (membershipTierId : Option Nat) :
    Bool :=
  let minFail : Bool :=
    match promo.minPurchaseAmount with
    | some m => m ≠ 0 ∧ subtotal < m
    | none => false
  let targetFail : Bool :=
    if promo.targetType = "products" then
      match promo.targetProducts with
      | some l => l.length > 0 ∧ ¬items.any (fun i => i.productId ∈ l)
      | none => false
    else if promo.targetType = "categories" then
      match promo.targetCategories with
      | some l => l.length > 0 ∧
          ¬items.any (fun i =>
            match i.categoryId with
            | some c => c ∈ l
            | none => false)
      | none => false
    else if promo.targetType = "customers" then
      match promo.targetCustomers with
      | some l => decide (l.length > 0) &&
          !(match customerId with
            | some c => decide (c ∈ l)
            | none => false)
      | none => false
    else false
  let tierFail : Bool :=
    match promo.targetMembershipTiers with
    | some l => decide (l.length > 0) &&
        !(match membershipTierId with
          | some t => decide (t ∈ l)
          | none => false)
    | none => false
  ¬minFail ∧ ¬targetFail ∧ ¬tierFail

/-- The free-sets term of `buy_x_get_y`:
`Math.floor(item.quantity / (buyQuantity + getQuantity))`. -/
def freeSets (quantity buyPlusGet : ℤ) : ℤ :=
  Rat.floor ((quantity : ℚ) / (buyPlusGet : ℚ))

/-- `calculateDiscount` (lines 534–567): per-type discount amount with the
`maxDiscountAmount` cap (the JS `Infinity` at
`buyQuantity + getQuantity = 0` is outside the model: division by zero is
0 here). -/
def calculateDiscount (promo : Promotion) (items : List CartItem)
    (subtotal : ℚ) : ℚ :=
  let discount : ℚ :=
    if promo.promotionType = "percentage" then
      subtotal * (promo.discountValue / 100)
    else if promo.promotionType = "fixed_amount" then
      promo.discountValue
    else if promo.promotionType = "buy_x_get_y" then
      match promo.buyQuantity, promo.getQuantity with
      | some b, some g =>
        if b ≠ 0 ∧ g ≠ 0 then
          items.foldl (fun acc item =>
            if (match promo.targetProducts with
                | none => true
                | some l => item.productId ∈ l) then
              acc + ((freeSets item.quantity (b + g) : ℤ) : ℚ) * (g : ℚ) * item.price
            else acc) 0
        else 0
      | _, _ => 0
    else 0
  match promo.maxDiscountAmount with
  | some m => if m ≠ 0 ∧ discount > m then m else discount
  | none => discount

/-- `.toUpperCase()` on a code string (ASCII case mapping, structurally
computable). -/
def jsUpper (s : String) : String :=
  String.mk (s.data.map Char.toUpper)

/-- Coupon-code match of the loop in `checkApplicable` (line 398):
`couponCode && promo.code && promo.code.toUpperCase() ===
couponCode.toUpperCase()`. -/
def couponMatches (couponCode : Option String) (promo : Promotion) : Bool :=
  match couponCode, promo.code with
  | some cc, some pc => cc ≠ "" ∧ pc ≠ "" ∧ jsUpper pc = jsUpper cc
  | _, _ => false

/-- The evaluation loop of `checkApplicable` (lines 396–415) over the
already-filtered, priority-sorted active promotions: a coded promotion is
considered only when it matches the coupon, a promotion with a falsy code
auto-applies, a matching non-stackable promotion breaks the loop. -/
def applyPromotions (items : List CartItem) (subtotal : ℚ)
    (customerId membershipTierId : Option Nat) (couponCode : Option String) :
    List Promotion → List Promotion × ℚ
  | [] => ([], 0)
  | promo :: rest =>
    if couponMatches couponCode promo then
      if checkPromotionConditions promo items subtotal customerId membershipTierId then
        if promo.isStackable then
          let r := applyPromotions items subtotal customerId membershipTierId couponCode rest
          (promo :: r.1, calculateDiscount promo items subtotal + r.2)
        else ([promo], calculateDiscount promo items subtotal)
      else applyPromotions items subtotal customerId membershipTierId couponCode rest
    else if ¬strT promo.code then
      if checkPromotionConditions promo items subtotal customerId membershipTierId then
        if promo.isStackable then
          let r := applyPromotions items subtotal customerId membershipTierId couponCode rest
          (promo :: r.1, calculateDiscount promo items subtotal + r.2)
        else ([promo], calculateDiscount promo items subtotal)
      else applyPromotions items subtotal customerId membershipTierId couponCode rest
    else applyPromotions items subtotal customerId membershipTierId couponCode rest

/-- `checkApplicable` (lines 368–421). `activePromotions` stands for the
result of the SQL query: the active candidates ordered by `priority`
descending (`isActiveCandidate`/sortedness are stated as hypotheses where
a claim needs them). The cart subtotal is recomputed as in line 394. -/
def checkApplicable (activePromotions : List Promotion)
    (items : List CartItem) (customerId membershipTierId : Option Nat)
    (couponCode : Option String) : List Promotion × ℚ :=
  let subtotal := items.foldl (fun sum item => sum + item.price * (item.quantity : ℚ)) 0
  applyPromotions items subtotal customerId membershipTierId couponCode activePromotions

/-! ### Observation helpers used to state the claims -/

/-- The inserted `sales` row of a successful `create`. -/
def saleOf : Except AppErr (DB × SaleRec) → Option SaleRec
  | .ok (_, s) => some s
  | .error _ => none

/-- Forget a product's mutable stock (everything `create`'s item loop
reads except `current_stock` is invariant under the loop). -/
def stripStock (p : Product) : Product :=
  { p with currentStock := 0 }

/-- Effective unit price of a cart line against a database state:
the explicit price, or the catalog `selling_price` when it is `0`/absent
(line 115 of `sale.service.ts`). -/
def lineUnitPrice (db : DB) (itm : SaleItem) : ℚ :=
  match findProduct db itm.productId with
  | some p => if itm.unitPrice = 0 then p.sellingPrice else itm.unitPrice
  | none => 0

/-- Per-line tax of a cart line against a database state
(lines 118–123 of `sale.service.ts`). -/
def lineTax (db : DB) (vatExempt : Bool) (itm : SaleItem) : ℚ :=
  match findProduct db itm.productId with
  | some p =>
    if p.isTaxable ∧ ¬vatExempt then
      (lineUnitPrice db itm * (itm.quantity : ℚ) - itm.discountAmount.getD 0) *
        (p.taxRate / 100)
    else 0
  | none => 0

/-- Total quantity a list of `itemsData` entries records for one product. -/
def soldQty (pid : Nat) (l : List ItemData) : ℤ :=
  ((l.filter (fun e => e.productId = pid)).map (fun e => e.quantity)).sum

/-- Total quantity a list of `sale_items` rows records for one product. -/
def rowQty (pid : Nat) (rows : List SaleItemRow) : ℤ :=
  ((rows.filter (fun e => e.productId = pid)).map (fun e => e.quantity)).sum

/-- A promotion the `checkApplicable` loop applies when reached: either it
matches the supplied coupon code, or its code is falsy (auto-apply), and
its conditions hold. -/
def matchingPromo (items : List CartItem) (subtotal : ℚ)
    (customerId membershipTierId : Option Nat) (couponCode : Option String)
    (promo : Promotion) : Bool :=
  (couponMatches couponCode promo || !strT promo.code) &&
    checkPromotionConditions promo items subtotal customerId membershipTierId

/-- Prefix of a list up to and including its first non-stackable element. -/
def takeThroughNonStackable : List Promotion → List Promotion
  | [] => []
  | p :: rest =>
    if p.isStackable then p :: takeThroughNonStackable rest else [p]

/-- The cart subtotal as recomputed by `checkApplicable` (line 394). -/
def cartSubtotal (items : List CartItem) : ℚ :=
  items.foldl (fun sum item => sum + item.price * (item.quantity : ℚ)) 0

/-- Fresh-identifier well-formedness: no persisted sale or sale item
already carries the id the next inserted sale will get. -/
def FreshSaleId (db : DB) : Prop :=
  (∀ s ∈ db.sales, s.sid ≠ db.nextSaleId) ∧
    (∀ r ∈ db.saleItems, r.saleId ≠ db.nextSaleId)

/-! ### Concrete instances for counterexamples and witnesses -/

/-- An empty store. -/
def emptyDB : DB :=
  { products := [], customers := [], users := [], sales := [], saleItems := [],
    stockMovements := [], loyaltyHistory := [], salePayments := [],
    saleDiscounts := [], nextSaleId := 100 }

/-- A tracked, non-taxable product: price 100, stock 10. -/
def baseProduct : Product :=
  { pid := 1, name := "Widget", sku := "W1", sellingPrice := 100, costPrice := 50,
    currentStock := 10, trackInventory := true, isTaxable := false, taxRate := 12,
    isVatExemptEligible := false, allowBackorder := false, deleted := false }

/-- A cart line: one unit of product 1 at explicit price 100. -/
def baseLine : SaleItem :=
  { productId := 1, variantId := none, quantity := 1, unitPrice := 100,
    discountAmount := none, discountType := none, discountPercentage := none }

/-- A plain cash create request for `baseLine`. -/
def baseData : CreateSaleData :=
  { customerId := none, items := [baseLine], paymentMethod := "cash",
    amountTendered := none, payments := none, discountType := none,
    discountAmount := none, isVatExempt := false, vatExemptReason := none,
    customerIdNumber := none, pointsToRedeem := none, notes := none }

/-- A supervisor holding both capabilities with PIN "1234" whose account
is inactive. -/
def baseSupervisor : UserAcct :=
  { uid := 7, supervisorPinSecret := some "1234", canAuthorizeVoid := true,
    canAuthorizeRefund := true, isActive := false }

/-- A customer with 10 points, no tier, zero history. -/
def baseCustomer : Customer :=
  { cid := 5, loyaltyPoints := 10, pointsMultiplier := none, lifetimeSpend := 0,
    totalTransactions := 0 }

/-- C1: catalog with one product, no customers. -/
def c1DB : DB := { emptyDB with products := [baseProduct] }

/-- C1: a cash sale of one unit at 100 with 5 points to redeem and NO
customer attached. -/
def c1Data : CreateSaleData := { baseData with pointsToRedeem := some 5 }

/-- C1 witness: the state committed by the `c1Data` sale. -/
def c1DBW : DB := applyCreate c1DB (create c1Data 7 c1DB)

/-- C1 witness: the `sales` row inserted by the `c1Data` sale. -/
def c1SaleW : SaleRec := mkSale c1Data 7 100 100 0 0 5 0

/-- C2: an inventory-UNtracked product with stock 3. -/
def c2Untracked : Product :=
  { baseProduct with
    pid := 2
    trackInventory := false
    currentStock := 3 }

/-- C2: catalog with the untracked product, the supervisor, a customer. -/
def c2DB : DB :=
  { emptyDB with
    products := [c2Untracked]
    users := [baseSupervisor]
    customers := [baseCustomer] }

/-- C2: a sale of one untracked unit, no customer. -/
def c2Data : CreateSaleData :=
  { baseData with items := [{ baseLine with productId := 2 }] }

/-- C2: a sale by customer 5 redeeming 5 points, on a tracked product. -/
def c2DataPoints : CreateSaleData :=
  { baseData with customerId := some 5, pointsToRedeem := some 5 }

/-- C2: catalog for the points scenario: tracked product, supervisor,
customer. -/
def c2DBPoints : DB :=
  { emptyDB with
    products := [baseProduct]
    users := [baseSupervisor]
    customers := [baseCustomer] }

/-- C3/C2 witness: tracked catalog with supervisor and customer. -/
def c3DB : DB :=
  { emptyDB with
    products := [baseProduct]
    users := [baseSupervisor]
    customers := [baseCustomer] }

/-- C2 witness: a sale by customer 5 with no points redeemed. -/
def c2WData : CreateSaleData := { baseData with customerId := some 5 }

/-- C2 witness: the state committed by the `c2WData` sale. -/
def c2DBW : DB := applyCreate c3DB (create c2WData 7 c3DB)

/-- C2 witness: the `sales` row inserted by the `c2WData` sale. -/
def c2SaleW : SaleRec := mkSale c2WData 7 100 100 0 1 0 0

/-- C2 witness: the state after voiding the `c2WData` sale. -/
def c2VoidW : DB := applyResult c2DBW (voidSale 100 "adjust" 7 "1234" 9 c2DBW)

/-- A completed sale row used by the void/refund scenarios. -/
def c8Sale : SaleRec :=
  { sid := 50, customerId := none, userId := 9, subtotal := 100,
    discountAmount := 0, taxAmount := 0, totalAmount := 100,
    paymentMethod := "cash", amountTendered := none, changeAmount := none,
    discountType := none, isVatExempt := false, vatExemptReason := none,
    vatableAmount := 100, vatAmount := 0, vatExemptAmount := 0,
    pointsEarned := 0, pointsRedeemed := 0, pointsValueRedeemed := 0,
    notes := none, status := "completed", voidedBy := none,
    voidAuthorizedBy := none, voidReason := none, refundedBy := none,
    refundAuthorizedBy := none, refundReason := none, refundAmount := 0 }

/-- C8: store with the completed sale and the INACTIVE supervisor. -/
def c8DB : DB := { emptyDB with users := [baseSupervisor], sales := [c8Sale] }

/-- C3: store with a pending sale, a completed sale and the supervisor. -/
def c3PendingDB : DB :=
  { emptyDB with
    users := [baseSupervisor]
    sales := [{ c8Sale with status := "pending" }, { c8Sale with sid := 51 }] }

/-- C4: tracked product with stock 2. -/
def c4Product : Product := { baseProduct with currentStock := 2 }

/-- C4: catalog with the stock-2 product. -/
def c4DB : DB := { emptyDB with products := [c4Product] }

/-- C4: a cart whose first line has a NEGATIVE quantity (-100) and whose
second line requests 5 units. -/
def c4Data : CreateSaleData :=
  { baseData with
    items := [{ baseLine with quantity := -100 }, { baseLine with quantity := 5 }] }

/-- C4 witness: a single line requesting 5 units with stock 2. -/
def c4DataPlain : CreateSaleData :=
  { baseData with items := [{ baseLine with quantity := 5 }] }

/-- C6: a codeless, non-stackable, always-eligible promotion template. -/
def c6Base : Promotion :=
  { pid := 0, name := "", code := none, promotionType := "fixed_amount",
    discountValue := 5, buyQuantity := none, getQuantity := none,
    minPurchaseAmount := none, maxDiscountAmount := none, usageLimit := none,
    currentUsage := 0, targetType := "all", targetProducts := none,
    targetCategories := none, targetCustomers := none,
    targetMembershipTiers := none, startDate := 0, endDate := 10,
    isStackable := false, priority := 1, isActive := true }

/-- C6: codeless auto-apply promotion with the HIGHER priority. -/
def c6Auto : Promotion := { c6Base with pid := 21, name := "AUTO", priority := 10 }

/-- C6: the coupon promotion (code "SAVE") with the LOWER priority. -/
def c6Coupon : Promotion :=
  { c6Base with
    pid := 22
    name := "COUPON"
    code := some "SAVE"
    priority := 1
    discountValue := 7 }

/-- C6/C7: a one-line cart, subtotal 200. -/
def c6Items : List CartItem :=
  [{ productId := 1, categoryId := none, quantity := 2, price := 100 }]

/-- C7 witness: a percentage promotion, 10 percent, capped at 3. -/
def c7Pct : Promotion :=
  { c6Base with
    promotionType := "percentage"
    discountValue := 10
    maxDiscountAmount := some 3 }

/-- C7 witness: buy 2 get 1 on a 7-unit line. -/
def c7Bxgy : Promotion :=
  { c6Base with
    promotionType := "buy_x_get_y"
    buyQuantity := some 2
    getQuantity := some 1 }

/-- C7 witness: cart with 7 units at price 10. -/
def c7Items : List CartItem :=
  [{ productId := 1, categoryId := none, quantity := 7, price := 10 }]

/-- C5 witness: active senior-citizen 20 percent VAT-exempt setting. -/
def c5ScSetting : DiscountSetting :=
  { discountType := "senior_citizen", name := "Senior Citizen", percentage := 20,
    isVatExempt := true, isActive := true }

/-- C5 witness: active PWD 20 percent VAT-exempt setting. -/
def c5PwdSetting : DiscountSetting :=
  { discountType := "pwd", name := "PWD", percentage := 20,
    isVatExempt := true, isActive := true }

/-- C5 witness: active Gold tier with 10 percent discount. -/
def c5Tier : MembershipTier :=
  { tid := 3, name := "Gold", discountPercentage := 10, pointsMultiplier := 2,
    isActive := true }

/-- C9: a cart line naming the nonexistent product 99. -/
def c9Data : CreateSaleData :=
  { baseData with items := [{ baseLine with productId := 99 }] }

/-- C9: catalog with only product 1. -/
def c9DB : DB := { emptyDB with products := [baseProduct] }

/-- C10: tendered 0 with a sale-level discount of 200 on a 100 subtotal,
so the computed total is -100. -/
def c10Data : CreateSaleData :=
  { baseData with amountTendered := some 0, discountAmount := some 200 }

/-- C10 witness: tendered 150 against a 100 total. -/
def c10DataPaid : CreateSaleData := { baseData with amountTendered := some 150 }

/-- C10 witness: the state committed by the `c10DataPaid` sale. -/
def c10DBW : DB := applyCreate c1DB (create c10DataPaid 7 c1DB)

/-- C10 witness: the `sales` row inserted by the `c10DataPaid` sale. -/
def c10SaleW : SaleRec := mkSale c10DataPaid 7 100 100 0 0 0 0

/-! ### Supporting lemmas -/

theorem find?_map_invariant {α : Type} (f : α → α) (q : α → Bool)
    (h : ∀ a, q (f a) = q a) (l : List α) :
    (l.map f).find? q = (l.find? q).map f := by
  have hq : (q ∘ f) = q := funext h
  rw [List.find?_map, hq]

theorem findProduct_bumpStock (db : DB) (x : Nat) (δ : ℤ) (y : Nat) :
    findProduct (bumpStock db x δ) y =
      (findProduct db y).map (fun p =>
        if p.pid = x then { p with currentStock := p.currentStock + δ } else p) := by
  unfold findProduct bumpStock
  exact find?_map_invariant _ _ (fun p => by by_cases hp : p.pid = x <;> simp [hp]) _

theorem findProductAny_bumpStock (db : DB) (x : Nat) (δ : ℤ) (y : Nat) :
    findProductAny (bumpStock db x δ) y =
      (findProductAny db y).map (fun p =>
        if p.pid = x then { p with currentStock := p.currentStock + δ } else p) := by
  unfold findProductAny bumpStock
  exact find?_map_invariant _ _ (fun p => by by_cases hp : p.pid = x <;> simp [hp]) _

theorem stockOf_bumpStock (db : DB) (x : Nat) (δ : ℤ) (y : Nat) :
    stockOf (bumpStock db x δ) y =
      stockOf db y + (if (findProductAny db y).isSome ∧ y = x then δ else 0) := by
  unfold stockOf
  rw [findProductAny_bumpStock]
  cases h : findProductAny db y with
  | none => simp
  | some p =>
    have hpid : p.pid = y := by
      have := List.find?_some h
      simpa using this
    by_cases hyx : y = x
    · simp [hpid, hyx]
    · simp [hpid, hyx]

theorem isSome_findProductAny_bumpStock (db : DB) (x : Nat) (δ : ℤ) (y : Nat) :
    (findProductAny (bumpStock db x δ) y).isSome = (findProductAny db y).isSome := by
  rw [findProductAny_bumpStock]
  cases findProductAny db y <;> simp

theorem stripStock_bump (x : Nat) (δ : ℤ) (p : Product) :
    stripStock (if p.pid = x then { p with currentStock := p.currentStock + δ } else p) =
      stripStock p := by
  by_cases hp : p.pid = x <;> simp [hp, stripStock]

theorem bumpStock_strip (db : DB) (x : Nat) (δ : ℤ) :
    (bumpStock db x δ).products.map stripStock = db.products.map stripStock := by
  unfold bumpStock
  rw [List.map_map]
  exact List.map_congr_left (fun p _ => stripStock_bump x δ p)

/-- Everything except `current_stock` — and the record fields other than
`products` and `stockMovements` — is invariant under the item loop. -/
theorem processItems_ok_inv (u : Nat) (v : Bool) :
    ∀ (items : List SaleItem) (db db' : DB) (s t : ℚ) (l : List ItemData),
      processItems u v db items = .ok (db', s, t, l) →
      db'.products.map stripStock = db.products.map stripStock ∧
      db'.customers = db.customers ∧ db'.users = db.users ∧
      db'.sales = db.sales ∧ db'.saleItems = db.saleItems ∧
      db'.loyaltyHistory = db.loyaltyHistory ∧
      db'.salePayments = db.salePayments ∧
      db'.saleDiscounts = db.saleDiscounts ∧
      db'.nextSaleId = db.nextSaleId
  | [], db, db', s, t, l, h => by
    simp only [processItems, Except.ok.injEq, Prod.mk.injEq] at h
    obtain ⟨h1, -, -, -⟩ := h
    subst h1
    exact ⟨rfl, rfl, rfl, rfl, rfl, rfl, rfl, rfl, rfl⟩
  | itm :: rest, db, db', s, t, l, h => by
    simp only [processItems] at h
    split at h
    · exact absurd h (by simp)
    next p hfp =>
      split at h
      · exact absurd h (by simp)
      next hstock =>
        split at h
        · exact absurd h (by simp)
        next dbR sR tR lR hrest =>
          simp only [Except.ok.injEq, Prod.mk.injEq] at h
          obtain ⟨hdb, -, -, -⟩ := h
          subst hdb
          have ih := processItems_ok_inv u v rest _ _ _ _ _ hrest
          obtain ⟨i1, i2, i3, i4, i5, i6, i7, i8, i9⟩ := ih
          by_cases htrack : p.trackInventory = true <;>
            simp only [htrack, if_true, if_false, Bool.false_eq_true] at i1 i2 i3 i4 i5 i6 i7 i8 i9 <;>
            refine ⟨?_, ?_, ?_, ?_, ?_, ?_, ?_, ?_, ?_⟩ <;>
            simp only [i1, i2, i3, i4, i5, i6, i7, i8, i9] <;>
            first
            | rfl
            | exact bumpStock_strip db p.pid (-itm.quantity)

theorem find?_strip_congr {l₁ l₂ : List Product}
    (h : l₁.map stripStock = l₂.map stripStock) (q : Product → Bool)
    (hq : (q ∘ stripStock) = q) :
    (l₁.find? q).map stripStock = (l₂.find? q).map stripStock := by
  have e1 : (l₁.map stripStock).find? q = (l₁.find? q).map stripStock := by
    rw [List.find?_map, hq]
  have e2 : (l₂.map stripStock).find? q = (l₂.find? q).map stripStock := by
    rw [List.find?_map, hq]
  rw [h] at e1
  exact e1.symm.trans e2

theorem findProduct_strip_congr {db₁ db₂ : DB}
    (h : db₁.products.map stripStock = db₂.products.map stripStock) (y : Nat) :
    (findProduct db₁ y).map stripStock = (findProduct db₂ y).map stripStock :=
  find?_strip_congr h _ rfl

theorem findProductAny_strip_congr {db₁ db₂ : DB}
    (h : db₁.products.map stripStock = db₂.products.map stripStock) (y : Nat) :
    (findProductAny db₁ y).map stripStock = (findProductAny db₂ y).map stripStock :=
  find?_strip_congr h _ rfl

theorem findProduct_none_congr {db₁ db₂ : DB}
    (h : db₁.products.map stripStock = db₂.products.map stripStock) (y : Nat) :
    findProduct db₁ y = none ↔ findProduct db₂ y = none := by
  have := findProduct_strip_congr h y
  constructor <;> intro hn <;> rw [hn] at this
  · cases hfp : findProduct db₂ y with
    | none => rfl
    | some p => rw [hfp] at this; exact absurd this.symm (by simp)
  · cases hfp : findProduct db₁ y with
    | none => rfl
    | some p => rw [hfp] at this; exact absurd this (by simp)

theorem lineUnitPrice_congr {db₁ db₂ : DB}
    (h : db₁.products.map stripStock = db₂.products.map stripStock)
    (itm : SaleItem) : lineUnitPrice db₁ itm = lineUnitPrice db₂ itm := by
  unfold lineUnitPrice
  have hc := findProduct_strip_congr h itm.productId
  cases h1 : findProduct db₁ itm.productId with
  | none =>
    rw [(findProduct_none_congr h itm.productId).mp h1]
  | some p =>
    rw [h1] at hc
    cases h2 : findProduct db₂ itm.productId with
    | none => rw [h2] at hc; exact absurd hc (by simp)
    | some p' =>
      rw [h2] at hc
      simp only [Option.map_some', Option.some.injEq] at hc
      have hs : p.sellingPrice = p'.sellingPrice := by
        have := congrArg Product.sellingPrice hc
        simpa [stripStock] using this
      simp [hs]

theorem lineTax_congr {db₁ db₂ : DB}
    (h : db₁.products.map stripStock = db₂.products.map stripStock)
    (v : Bool) (itm : SaleItem) : lineTax db₁ v itm = lineTax db₂ v itm := by
  unfold lineTax
  have hc := findProduct_strip_congr h itm.productId
  have hu := lineUnitPrice_congr h itm
  cases h1 : findProduct db₁ itm.productId with
  | none =>
    rw [(findProduct_none_congr h itm.productId).mp h1]
  | some p =>
    rw [h1] at hc
    cases h2 : findProduct db₂ itm.productId with
    | none => rw [h2] at hc; exact absurd hc (by simp)
    | some p' =>
      rw [h2] at hc
      simp only [Option.map_some', Option.some.injEq] at hc
      have ht : p.isTaxable = p'.isTaxable := by
        have := congrArg Product.isTaxable hc
        simpa [stripStock] using this
      have hr : p.taxRate = p'.taxRate := by
        have := congrArg Product.taxRate hc
        simpa [stripStock] using this
      simp [ht, hr, hu]

theorem findCustomer_map (db : DB) (f : Customer → Customer)
    (hf : ∀ c, (f c).cid = c.cid) (y : Nat) :
    findCustomer { db with customers := db.customers.map f } y =
      (findCustomer db y).map f := by
  unfold findCustomer
  exact find?_map_invariant f _ (fun c => by simp [hf c]) _

theorem computePoints_err_kind {db : DB} {data : CreateSaleData} {T : ℚ} {e : AppErr}
    (h : computePoints db data T = .error e) : e.isBadRequest = true := by
  unfold computePoints at h
  split at h
  · exact absurd h (by simp)
  · split at h
    · exact absurd h (by simp)
    · split at h
      · split at h
        · simp only [Except.error.injEq] at h; subst h; rfl
        · exact absurd h (by simp)
      · exact absurd h (by simp)

theorem computePoints_ok_val {db : DB} {data : CreateSaleData} {T : ℚ}
    {pe pr : ℤ} {pv : ℚ} (h : computePoints db data T = .ok (pe, pr, pv)) :
    pr = data.pointsToRedeem.getD 0 ∧
    pv = (match data.customerId with
          | some cid =>
            match findCustomer db cid with
            | some _ => if pr > 0 then (pr : ℚ) else 0
            | none => 0
          | none => 0) := by
  unfold computePoints at h
  split at h
  next hnone =>
    simp only [Except.ok.injEq, Prod.mk.injEq] at h
    obtain ⟨-, h2, h3⟩ := h
    subst h2; subst h3
    simp [hnone]
  next cid hcid =>
    split at h
    next hfc =>
      simp only [Except.ok.injEq, Prod.mk.injEq] at h
      obtain ⟨-, h2, h3⟩ := h
      subst h2; subst h3
      simp [hcid, hfc]
    next c hfc =>
      split at h
      next hpr =>
        split at h
        · exact absurd h (by simp)
        next hins =>
          simp only [Except.ok.injEq, Prod.mk.injEq] at h
          obtain ⟨-, h2, h3⟩ := h
          subst h2; subst h3
          simp [hcid, hfc, hpr]
      next hpr =>
        simp only [Except.ok.injEq, Prod.mk.injEq] at h
        obtain ⟨-, h2, h3⟩ := h
        subst h2; subst h3
        simp only [hcid, hfc]
        rw [if_neg hpr]
        exact ⟨trivial, rfl⟩

theorem computePoints_none_redeem {db : DB} {data : CreateSaleData} {T : ℚ}
    (hnone : data.pointsToRedeem = none) :
    ∃ pe, computePoints db data T = .ok (pe, 0, 0) := by
  unfold computePoints
  rw [hnone]
  cases data.customerId with
  | none => exact ⟨0, rfl⟩
  | some cid =>
    simp only [Option.getD_none]
    cases findCustomer db cid with
    | none => exact ⟨0, rfl⟩
    | some c =>
      refine ⟨Rat.floor ((T / 100) * c.pointsMultiplier.getD 1), ?_⟩
      simp

theorem persistSale_snd (data : CreateSaleData) (u : Nat) (db1 : DB)
    (sub tax : ℚ) (l : List ItemData) (pe pr : ℤ) (pv : ℚ) :
    (persistSale data u db1 sub tax l pe pr pv).2 =
      mkSale data u db1.nextSaleId sub tax pe pr pv := rfl

theorem persistSale_fst (data : CreateSaleData) (u : Nat) (db1 : DB)
    (sub tax : ℚ) (l : List ItemData) (pe pr : ℤ) (pv : ℚ) :
    (persistSale data u db1 sub tax l pe pr pv).1.products = db1.products ∧
    (persistSale data u db1 sub tax l pe pr pv).1.users = db1.users ∧
    (persistSale data u db1 sub tax l pe pr pv).1.stockMovements = db1.stockMovements ∧
    (persistSale data u db1 sub tax l pe pr pv).1.sales =
      db1.sales ++ [mkSale data u db1.nextSaleId sub tax pe pr pv] ∧
    (persistSale data u db1 sub tax l pe pr pv).1.saleItems =
      db1.saleItems ++ l.map (fun e => e.toRow db1.nextSaleId) ∧
    (persistSale data u db1 sub tax l pe pr pv).1.nextSaleId = db1.nextSaleId + 1 ∧
    (persistSale data u db1 sub tax l pe pr pv).1.customers =
      (match data.customerId with
       | some cid => db1.customers.map
           (custUpd cid pe pr (sub - data.discountAmount.getD 0 + tax))
       | none => db1.customers) := by
  simp only [persistSale]
  generalize mkSale data u db1.nextSaleId sub tax pe pr pv = sX
  repeat' split
  all_goals exact ⟨rfl, rfl, rfl, rfl, rfl, rfl, rfl⟩

theorem create_ok_elim {data : CreateSaleData} {u : Nat} {db dbF : DB}
    {S : SaleRec} (h : create data u db = .ok (dbF, S)) :
    ∃ db1 sub tax l pe pr pv,
      processItems u data.isVatExempt db data.items = .ok (db1, sub, tax, l) ∧
      computePoints db1 data (sub - data.discountAmount.getD 0 + tax) =
        .ok (pe, pr, pv) ∧
      dbF = (persistSale data u db1 sub tax l pe pr pv).1 ∧
      S = mkSale data u db1.nextSaleId sub tax pe pr pv := by
  unfold create at h
  split at h
  · exact absurd h (by simp)
  next db1 sub tax l hpi =>
    split at h
    · exact absurd h (by simp)
    next pe pr pv hcp =>
      simp only [Except.ok.injEq] at h
      refine ⟨db1, sub, tax, l, pe, pr, pv, hpi, hcp, ?_, ?_⟩
      · exact (congrArg Prod.fst h).symm
      · rw [← persistSale_snd data u db1 sub tax l pe pr pv]
        exact (congrArg Prod.snd h).symm

theorem processItems_err_kind (u : Nat) (v : Bool) :
    ∀ (items : List SaleItem) (db : DB) (e : AppErr),
      processItems u v db items = .error e → e.isBadRequest = true
  | [], db, e, h => by simp [processItems] at h
  | itm :: rest, db, e, h => by
    simp only [processItems] at h
    split at h
    · simp only [Except.error.injEq] at h; subst h; rfl
    next p hfp =>
      split at h
      · simp only [Except.error.injEq] at h; subst h; rfl
      next hstock =>
        split at h
        next e' hrest =>
          simp only [Except.error.injEq] at h
          subst h
          exact processItems_err_kind u v rest _ _ hrest
        · exact absurd h (by simp)

theorem findProduct_after_bump {db : DB} (x : Nat) (δ : ℤ) (y : Nat) {p : Product}
    (hfp : findProduct db y = some p) :
    ∃ p', findProduct (bumpStock db x δ) y = some p' ∧
      stripStock p' = stripStock p ∧
      (p'.currentStock = p.currentStock ∨ p'.currentStock = p.currentStock + δ) := by
  rw [findProduct_bumpStock, hfp]
  by_cases hx : p.pid = x
  · refine ⟨{ p with currentStock := p.currentStock + δ }, ?_, ?_, Or.inr rfl⟩
    · simp [hx]
    · simp [stripStock]
  · exact ⟨p, by simp [hx], rfl, Or.inl rfl⟩

theorem saleStep_strip (u : Nat) (p : Product) (itm : SaleItem) (db : DB) :
    (saleStep u p itm db).products.map stripStock = db.products.map stripStock :=
  bumpStock_strip db p.pid (-itm.quantity)

theorem findProduct_saleStep (u : Nat) (p : Product) (itm : SaleItem) (db : DB)
    (y : Nat) :
    findProduct (saleStep u p itm db) y =
      (findProduct db y).map (fun q =>
        if q.pid = p.pid then
          { q with currentStock := q.currentStock + -itm.quantity }
        else q) :=
  findProduct_bumpStock db p.pid (-itm.quantity) y

theorem stockOf_saleStep (u : Nat) (p : Product) (itm : SaleItem) (db : DB)
    (y : Nat) :
    stockOf (saleStep u p itm db) y =
      stockOf db y +
        (if (findProductAny db y).isSome ∧ y = p.pid then -itm.quantity else 0) :=
  stockOf_bumpStock db p.pid (-itm.quantity) y

theorem findProduct_after_saleStep (u : Nat) (p : Product) (itm : SaleItem)
    {db : DB} (y : Nat) {q : Product} (hfp : findProduct db y = some q) :
    ∃ q', findProduct (saleStep u p itm db) y = some q' ∧
      stripStock q' = stripStock q ∧
      (q'.currentStock = q.currentStock ∨
        q'.currentStock = q.currentStock + -itm.quantity) :=
  findProduct_after_bump p.pid (-itm.quantity) y hfp

theorem processItems_ok_sums (u : Nat) (v : Bool) :
    ∀ (items : List SaleItem) (db db' : DB) (s t : ℚ) (l : List ItemData),
      processItems u v db items = .ok (db', s, t, l) →
      s = (items.map (fun itm => lineUnitPrice db itm * (itm.quantity : ℚ))).sum ∧
      t = (items.map (lineTax db v)).sum
  | [], db, db', s, t, l, h => by
    simp only [processItems, Except.ok.injEq, Prod.mk.injEq] at h
    obtain ⟨-, h2, h3, -⟩ := h
    subst h2; subst h3
    simp
  | itm :: rest, db, db', s, t, l, h => by
    simp only [processItems] at h
    split at h
    · exact absurd h (by simp)
    next p hfp =>
      split at h
      · exact absurd h (by simp)
      next hstock =>
        split at h
        · exact absurd h (by simp)
        next dbR sR tR lR hrest =>
          simp only [Except.ok.injEq, Prod.mk.injEq] at h
          obtain ⟨-, hs, ht, -⟩ := h
          subst hs; subst ht
          have hhead_u : lineUnitPrice db itm =
              (if itm.unitPrice = 0 then p.sellingPrice else itm.unitPrice) := by
            simp [lineUnitPrice, hfp]
          have hhead_t : lineTax db v itm =
              (if p.isTaxable = true ∧ ¬v = true then
                ((if itm.unitPrice = 0 then p.sellingPrice else itm.unitPrice) *
                  (itm.quantity : ℚ) - itm.discountAmount.getD 0) * (p.taxRate / 100)
              else 0) := by
            simp only [lineTax, lineUnitPrice, hfp]
          by_cases htrack : p.trackInventory = true
          · rw [if_pos htrack] at hrest
            have hstep : ((saleStep u p itm db).products).map stripStock =
                db.products.map stripStock := saleStep_strip u p itm db
            have ih := processItems_ok_sums u v rest _ _ _ _ _ hrest
            obtain ⟨ihs, iht⟩ := ih
            constructor
            · rw [ihs]
              simp only [List.map_cons, List.sum_cons, hhead_u]
              congr 1
              exact congrArg List.sum (List.map_congr_left
                (fun itm' _ => by rw [lineUnitPrice_congr hstep itm']))
            · rw [iht]
              simp only [List.map_cons, List.sum_cons, hhead_t]
              congr 1
              exact congrArg List.sum (List.map_congr_left
                (fun itm' _ => by rw [lineTax_congr hstep v itm']))
          · rw [if_neg htrack] at hrest
            have ih := processItems_ok_sums u v rest _ _ _ _ _ hrest
            obtain ⟨ihs, iht⟩ := ih
            constructor
            · rw [ihs]; simp only [List.map_cons, List.sum_cons, hhead_u]
            · rw [iht]; simp only [List.map_cons, List.sum_cons, hhead_t]

theorem processItems_fails_missing (u : Nat) (v : Bool) :
    ∀ (items : List SaleItem) (db : DB),
      (∃ itm ∈ items, findProduct db itm.productId = none) →
      ∃ e, processItems u v db items = .error e
  | [], db, h => by simp at h
  | itm :: rest, db, h => by
    obtain ⟨w, hw, hwnone⟩ := h
    cases hfp : findProduct db itm.productId with
    | none =>
      exact ⟨.badRequest ("Product not found: " ++ toString itm.productId),
        by simp [processItems, hfp]⟩
    | some p =>
      rcases List.mem_cons.mp hw with hweq | hwrest
      · subst hweq; rw [hwnone] at hfp; exact absurd hfp (by simp)
      · by_cases hstock : p.trackInventory = true ∧ p.currentStock < itm.quantity
        · exact ⟨_, by simp only [processItems, hfp]; rw [if_pos hstock]⟩
        · by_cases htrack : p.trackInventory = true
          · have hwnone' : findProduct (saleStep u p itm db) w.productId = none := by
              rw [findProduct_saleStep, hwnone]; rfl
            obtain ⟨e, he⟩ := processItems_fails_missing u v rest
              (saleStep u p itm db) ⟨w, hwrest, hwnone'⟩
            refine ⟨e, ?_⟩
            simp only [processItems, hfp]
            rw [if_neg hstock, if_pos htrack, he]
          · obtain ⟨e, he⟩ := processItems_fails_missing u v rest db ⟨w, hwrest, hwnone⟩
            refine ⟨e, ?_⟩
            simp only [processItems, hfp]
            rw [if_neg hstock, if_neg htrack, he]

theorem processItems_fails_insufficient (u : Nat) (v : Bool) :
    ∀ (items : List SaleItem) (db : DB),
      (∀ itm ∈ items, 0 ≤ itm.quantity) →
      (∃ itm ∈ items, ∃ p, findProduct db itm.productId = some p ∧
        p.trackInventory = true ∧ p.currentStock < itm.quantity) →
      ∃ e, processItems u v db items = .error e
  | [], db, _, h => by simp at h
  | itm :: rest, db, hq, h => by
    obtain ⟨w, hw, pw, hwfind, hwtrack, hwstock⟩ := h
    cases hfp : findProduct db itm.productId with
    | none =>
      exact ⟨.badRequest ("Product not found: " ++ toString itm.productId),
        by simp [processItems, hfp]⟩
    | some p =>
      by_cases hstock : p.trackInventory = true ∧ p.currentStock < itm.quantity
      · exact ⟨_, by simp only [processItems, hfp]; rw [if_pos hstock]⟩
      · rcases List.mem_cons.mp hw with hweq | hwrest
        · subst hweq
          rw [hwfind] at hfp
          cases hfp
          exact absurd ⟨hwtrack, hwstock⟩ hstock
        · by_cases htrack : p.trackInventory = true
          · obtain ⟨p', hp'find, hp'strip, hp'stock⟩ :=
              findProduct_after_saleStep u p itm w.productId hwfind
            have hp'track : p'.trackInventory = true := by
              have := congrArg Product.trackInventory hp'strip
              simp only [stripStock] at this
              rw [this]; exact hwtrack
            have hp'lt : p'.currentStock < w.quantity := by
              rcases hp'stock with hsame | hdec
              · rw [hsame]; exact hwstock
              · rw [hdec]
                have hq0 : 0 ≤ itm.quantity := hq itm (List.mem_cons_self itm rest)
                omega
            obtain ⟨e, he⟩ := processItems_fails_insufficient u v rest
              (saleStep u p itm db)
              (fun itm' hmem => hq itm' (List.mem_cons_of_mem itm hmem))
              ⟨w, hwrest, p', hp'find, hp'track, hp'lt⟩
            refine ⟨e, ?_⟩
            simp only [processItems, hfp]
            rw [if_neg hstock, if_pos htrack, he]
          · obtain ⟨e, he⟩ := processItems_fails_insufficient u v rest db
              (fun itm' hmem => hq itm' (List.mem_cons_of_mem itm hmem))
              ⟨w, hwrest, pw, hwfind, hwtrack, hwstock⟩
            refine ⟨e, ?_⟩
            simp only [processItems, hfp]
            rw [if_neg hstock, if_neg htrack, he]

theorem soldQty_cons (pid : Nat) (e : ItemData) (l : List ItemData) :
    soldQty pid (e :: l) =
      (if e.productId = pid then e.quantity else 0) + soldQty pid l := by
  simp only [soldQty, List.filter_cons]
  split
  next hp => simp at hp; simp [hp]
  next hp => simp at hp; simp [hp]

theorem rowQty_cons (pid : Nat) (e : SaleItemRow) (l : List SaleItemRow) :
    rowQty pid (e :: l) =
      (if e.productId = pid then e.quantity else 0) + rowQty pid l := by
  simp only [rowQty, List.filter_cons]
  split
  next hp => simp at hp; simp [hp]
  next hp => simp at hp; simp [hp]

theorem stockOf_eq_of_products {db₁ db₂ : DB} (h : db₁.products = db₂.products)
    (pid : Nat) : stockOf db₁ pid = stockOf db₂ pid := by
  unfold stockOf findProductAny
  rw [h]

theorem findProductAny_eq_of_products {db₁ db₂ : DB}
    (h : db₁.products = db₂.products) (pid : Nat) :
    findProductAny db₁ pid = findProductAny db₂ pid := by
  unfold findProductAny
  rw [h]

/-- When every cart line names a tracked product, the item loop decrements
every product by exactly the quantities its `itemsData` entries record. -/
theorem processItems_ok_stock (u : Nat) (v : Bool) :
    ∀ (items : List SaleItem) (db db' : DB) (s t : ℚ) (l : List ItemData),
      (∀ itm ∈ items, ∀ p, findProduct db itm.productId = some p →
        p.trackInventory = true) →
      processItems u v db items = .ok (db', s, t, l) →
      ∀ pid, stockOf db' pid = stockOf db pid - soldQty pid l
  | [], db, db', s, t, l, _, h => by
    simp only [processItems, Except.ok.injEq, Prod.mk.injEq] at h
    obtain ⟨h1, -, -, h4⟩ := h
    subst h1; subst h4
    intro pid; simp [soldQty]
  | itm :: rest, db, db', s, t, l, htrack, h => by
    simp only [processItems] at h
    split at h
    · exact absurd h (by simp)
    next p hfp =>
      split at h
      · exact absurd h (by simp)
      next hstock =>
        split at h
        · exact absurd h (by simp)
        next dbR sR tR lR hrest =>
          simp only [Except.ok.injEq, Prod.mk.injEq] at h
          obtain ⟨hdb, -, -, hl⟩ := h
          subst hdb; subst hl
          have htrackp : p.trackInventory = true :=
            htrack itm (List.mem_cons_self itm rest) p hfp
          rw [if_pos htrackp] at hrest
          have htrack' : ∀ itm' ∈ rest, ∀ p',
              findProduct (saleStep u p itm db) itm'.productId = some p' →
              p'.trackInventory = true := by
            intro itm' hm p' hp'
            rw [findProduct_saleStep] at hp'
            cases horig : findProduct db itm'.productId with
            | none => rw [horig] at hp'; exact absurd hp' (by simp)
            | some q =>
              rw [horig] at hp'
              simp only [Option.map_some', Option.some.injEq] at hp'
              have hq := htrack itm' (List.mem_cons_of_mem itm hm) q horig
              rw [← hp']
              by_cases hqp : q.pid = p.pid <;> simp [hqp, hq]
          have ih := processItems_ok_stock u v rest _ _ _ _ _ htrack' hrest
          intro pid
          rw [ih pid, stockOf_saleStep, soldQty_cons]
          have hpidm : p.pid = itm.productId := by
            have := List.find?_some hfp
            simp at this
            exact this.1
          by_cases hpp : pid = p.pid
          · have hsome : (findProductAny db pid).isSome = true := by
              rw [hpp]
              unfold findProductAny
              rw [List.find?_isSome]
              exact ⟨p, List.mem_of_find?_eq_some hfp, by simp⟩
            rw [if_pos ⟨hsome, hpp⟩, if_pos hpp.symm]
            ring
          · rw [if_neg (by tauto), if_neg (fun hc => hpp hc.symm)]
            ring

theorem findSale_map (db : DB) (f : SaleRec → SaleRec)
    (hf : ∀ s, (f s).sid = s.sid) (y : Nat) :
    findSale { db with sales := db.sales.map f } y = (findSale db y).map f := by
  unfold findSale
  exact find?_map_invariant f _ (fun s => by simp [hf s]) _

theorem returnStep_products (rt nt : String) (a sid : Nat) (r : SaleItemRow)
    (db : DB) :
    (returnStep rt nt a sid r db).products =
      (bumpStock db r.productId r.quantity).products := by
  simp only [returnStep]
  split <;> rfl

theorem returnStep_inv (rt nt : String) (a sid : Nat) (r : SaleItemRow)
    (db : DB) :
    (returnStep rt nt a sid r db).customers = db.customers ∧
    (returnStep rt nt a sid r db).users = db.users ∧
    (returnStep rt nt a sid r db).sales = db.sales ∧
    (returnStep rt nt a sid r db).saleItems = db.saleItems ∧
    (returnStep rt nt a sid r db).salePayments = db.salePayments ∧
    (returnStep rt nt a sid r db).saleDiscounts = db.saleDiscounts ∧
    (returnStep rt nt a sid r db).loyaltyHistory = db.loyaltyHistory ∧
    (returnStep rt nt a sid r db).nextSaleId = db.nextSaleId := by
  simp only [returnStep]
  split <;> exact ⟨rfl, rfl, rfl, rfl, rfl, rfl, rfl, rfl⟩

theorem returnStep_strip (rt nt : String) (a sid : Nat) (r : SaleItemRow)
    (db : DB) :
    (returnStep rt nt a sid r db).products.map stripStock =
      db.products.map stripStock := by
  rw [returnStep_products]
  exact bumpStock_strip db r.productId r.quantity

theorem returnStep_stockOf (rt nt : String) (a sid : Nat) (r : SaleItemRow)
    (db : DB) (pid : Nat) :
    stockOf (returnStep rt nt a sid r db) pid =
      stockOf db pid +
        (if (findProductAny db pid).isSome ∧ pid = r.productId
         then r.quantity else 0) := by
  rw [stockOf_eq_of_products (returnStep_products rt nt a sid r db) pid]
  exact stockOf_bumpStock db r.productId r.quantity pid

/-- The restore loop never touches anything but `products` (stocks only)
and `stock_movements`. -/
theorem restoreStock_inv (rt nt : String) (a sid : Nat) :
    ∀ (rows : List SaleItemRow) (db : DB),
      (restoreStock rt nt a sid db rows).customers = db.customers ∧
      (restoreStock rt nt a sid db rows).users = db.users ∧
      (restoreStock rt nt a sid db rows).sales = db.sales ∧
      (restoreStock rt nt a sid db rows).saleItems = db.saleItems ∧
      (restoreStock rt nt a sid db rows).salePayments = db.salePayments ∧
      (restoreStock rt nt a sid db rows).saleDiscounts = db.saleDiscounts ∧
      (restoreStock rt nt a sid db rows).loyaltyHistory = db.loyaltyHistory ∧
      (restoreStock rt nt a sid db rows).nextSaleId = db.nextSaleId ∧
      (restoreStock rt nt a sid db rows).products.map stripStock =
        db.products.map stripStock
  | [], db => ⟨rfl, rfl, rfl, rfl, rfl, rfl, rfl, rfl, rfl⟩
  | r :: rest, db => by
    have ih := restoreStock_inv rt nt a sid rest (returnStep rt nt a sid r db)
    obtain ⟨i1, i2, i3, i4, i5, i6, i7, i8, i9⟩ := ih
    have st := returnStep_inv rt nt a sid r db
    obtain ⟨s1, s2, s3, s4, s5, s6, s7, s8⟩ := st
    refine ⟨?_, ?_, ?_, ?_, ?_, ?_, ?_, ?_, ?_⟩ <;>
      simp only [restoreStock, i1, i2, i3, i4, i5, i6, i7, i8, i9,
        s1, s2, s3, s4, s5, s6, s7, s8, returnStep_strip]

/-- The restore loop adds back exactly the recorded quantities, provided
each row's product row exists. -/
theorem restoreStock_stockOf (rt nt : String) (a sid : Nat) :
    ∀ (rows : List SaleItemRow) (db : DB),
      (∀ r ∈ rows, (findProductAny db r.productId).isSome = true) →
      ∀ pid, stockOf (restoreStock rt nt a sid db rows) pid =
        stockOf db pid + rowQty pid rows
  | [], db, _ => by intro pid; simp [restoreStock, rowQty]
  | r :: rest, db, hpres => by
    intro pid
    have hpres' : ∀ r' ∈ rest,
        (findProductAny (returnStep rt nt a sid r db) r'.productId).isSome = true := by
      intro r' hm
      rw [findProductAny_eq_of_products (returnStep_products rt nt a sid r db)]
      rw [isSome_findProductAny_bumpStock]
      exact hpres r' (List.mem_cons_of_mem r hm)
    have ih := restoreStock_stockOf rt nt a sid rest
      (returnStep rt nt a sid r db) hpres' pid
    simp only [restoreStock]
    rw [ih, returnStep_stockOf, rowQty_cons]
    have hsome := hpres r (List.mem_cons_self r rest)
    by_cases hpp : pid = r.productId
    · rw [if_pos ⟨by rw [hpp]; exact hsome, hpp⟩, if_pos hpp.symm]
      ring
    · rw [if_neg (by tauto), if_neg (fun hc => hpp hc.symm)]
      ring

theorem reverseCustomer_obs (db : DB) (sale : SaleRec) :
    (reverseCustomer db sale).products = db.products ∧
    (reverseCustomer db sale).users = db.users ∧
    (reverseCustomer db sale).sales = db.sales ∧
    (reverseCustomer db sale).saleItems = db.saleItems ∧
    (reverseCustomer db sale).customers =
      (match sale.customerId with
       | some cid => db.customers.map (custRev cid sale)
       | none => db.customers) := by
  cases hc : sale.customerId <;> simp [reverseCustomer, hc]

theorem voidApply_obs (saleId : Nat) (reason : String) (auth actor : Nat)
    (db : DB) (sale : SaleRec) :
    (voidApply saleId reason auth actor db sale).sales =
      db.sales.map (voidUpd saleId reason auth actor) ∧
    (voidApply saleId reason auth actor db sale).saleItems = db.saleItems ∧
    (voidApply saleId reason auth actor db sale).users = db.users ∧
    (voidApply saleId reason auth actor db sale).customers =
      (match sale.customerId with
       | some cid =>
         db.customers.map (custRev cid sale)
       | none => db.customers) := by
  simp only [voidApply]
  have hrev := reverseCustomer_obs
    (restoreStock "void" ("Void: " ++ reason) actor saleId
      { db with sales := db.sales.map (voidUpd saleId reason auth actor) }
      (db.saleItems.filter (fun r => r.saleId = saleId)))
    sale
  obtain ⟨r1, r2, r3, r4, r5⟩ := hrev
  have hres := restoreStock_inv "void" ("Void: " ++ reason) actor saleId
    (db.saleItems.filter (fun r => r.saleId = saleId))
    { db with sales := db.sales.map (voidUpd saleId reason auth actor) }
  obtain ⟨i1, i2, i3, i4, i5, i6, i7, i8, i9⟩ := hres
  exact ⟨by rw [r3, i3], by rw [r4, i4], by rw [r2, i2], by rw [r5, i1]⟩

theorem voidApply_stockOf (saleId : Nat) (reason : String) (auth actor : Nat)
    (db : DB) (sale : SaleRec)
    (hpres : ∀ r ∈ db.saleItems.filter (fun r => r.saleId = saleId),
      (findProductAny db r.productId).isSome = true) (pid : Nat) :
    stockOf (voidApply saleId reason auth actor db sale) pid =
      stockOf db pid +
        rowQty pid (db.saleItems.filter (fun r => r.saleId = saleId)) := by
  simp only [voidApply]
  have hrev := reverseCustomer_obs
    (restoreStock "void" ("Void: " ++ reason) actor saleId
      { db with sales := db.sales.map (voidUpd saleId reason auth actor) }
      (db.saleItems.filter (fun r => r.saleId = saleId)))
    sale
  obtain ⟨r1, -, -, -, -⟩ := hrev
  rw [stockOf_eq_of_products r1 pid]
  exact restoreStock_stockOf "void" ("Void: " ++ reason) actor saleId
    (db.saleItems.filter (fun r => r.saleId = saleId))
    { db with sales := db.sales.map (voidUpd saleId reason auth actor) }
    hpres pid

theorem refundApply_obs (saleId : Nat) (reason : String) (auth actor : Nat)
    (db : DB) (sale : SaleRec) :
    (refundApply saleId reason auth actor db sale).sales =
      db.sales.map (refundUpd saleId reason auth actor) ∧
    (refundApply saleId reason auth actor db sale).saleItems = db.saleItems ∧
    (refundApply saleId reason auth actor db sale).users = db.users ∧
    (refundApply saleId reason auth actor db sale).customers =
      (match sale.customerId with
       | some cid =>
         db.customers.map (custRev cid sale)
       | none => db.customers) := by
  simp only [refundApply]
  have hrev := reverseCustomer_obs
    (restoreStock "refund" ("Refund: " ++ reason) actor saleId
      { db with sales := db.sales.map (refundUpd saleId reason auth actor) }
      (db.saleItems.filter (fun r => r.saleId = saleId)))
    sale
  obtain ⟨r1, r2, r3, r4, r5⟩ := hrev
  have hres := restoreStock_inv "refund" ("Refund: " ++ reason) actor saleId
    (db.saleItems.filter (fun r => r.saleId = saleId))
    { db with sales := db.sales.map (refundUpd saleId reason auth actor) }
  obtain ⟨i1, i2, i3, i4, i5, i6, i7, i8, i9⟩ := hres
  exact ⟨by rw [r3, i3], by rw [r4, i4], by rw [r2, i2], by rw [r5, i1]⟩

theorem create_err_kind {data : CreateSaleData} {u : Nat} {db : DB} {e : AppErr}
    (h : create data u db = .error e) : e.isBadRequest = true := by
  unfold create at h
  split at h
  next e' hpi =>
    simp only [Except.error.injEq] at h
    subst h
    exact processItems_err_kind u data.isVatExempt data.items db e' hpi
  next db1 sub tax l hpi =>
    split at h
    next e' hcp =>
      simp only [Except.error.injEq] at h
      subst h
      exact computePoints_err_kind hcp
    · exact absurd h (by simp)

theorem foldl_if_filter_sum (P : CartItem → Bool) (f : CartItem → ℚ) :
    ∀ (items : List CartItem) (acc : ℚ),
      items.foldl (fun a i => if P i then a + f i else a) acc =
        acc + ((items.filter P).map f).sum
  | [], acc => by simp
  | i :: rest, acc => by
    by_cases hp : P i = true
    · simp only [List.foldl_cons, hp, if_true, List.filter_cons_of_pos hp,
        List.map_cons, List.sum_cons,
        foldl_if_filter_sum P f rest (acc + f i)]
      ring
    · simp only [List.foldl_cons, hp, if_false, Bool.false_eq_true,
        List.filter_cons_of_neg (by simpa using hp),
        foldl_if_filter_sum P f rest acc]

theorem takeThroughNonStackable_sublist :
    ∀ l : List Promotion, List.Sublist (takeThroughNonStackable l) l
  | [] => List.Sublist.refl []
  | p :: rest => by
    simp only [takeThroughNonStackable]
    split
    · exact (takeThroughNonStackable_sublist rest).cons₂ p
    · exact (List.nil_sublist rest).cons₂ p

theorem checkApplicable_eq (promos : List Promotion) (items : List CartItem)
    (cid mt : Option Nat) (coupon : Option String) :
    checkApplicable promos items cid mt coupon =
      applyPromotions items (cartSubtotal items) cid mt coupon promos := rfl

/-- The loop of `checkApplicable` applies exactly the matching candidates
in list order, up to and including the first non-stackable one, and sums
their discounts. -/
theorem applyPromotions_eq (items : List CartItem) (st : ℚ)
    (cid mt : Option Nat) (coupon : Option String) :
    ∀ l : List Promotion,
      applyPromotions items st cid mt coupon l =
        (takeThroughNonStackable (l.filter (matchingPromo items st cid mt coupon)),
         ((takeThroughNonStackable
            (l.filter (matchingPromo items st cid mt coupon))).map
           (fun p => calculateDiscount p items st)).sum)
  | [] => by simp [applyPromotions, takeThroughNonStackable]
  | promo :: rest => by
    have ih := applyPromotions_eq items st cid mt coupon rest
    by_cases hcm : couponMatches coupon promo = true
    · by_cases hcond :
          checkPromotionConditions promo items st cid mt = true
      · have hmatch : matchingPromo items st cid mt coupon promo = true := by
          simp [matchingPromo, hcm, hcond]
        by_cases hstk : promo.isStackable = true
        · simp [applyPromotions, hcm, hcond, hstk, hmatch, ih,
            List.filter_cons, takeThroughNonStackable]
        · simp [applyPromotions, hcm, hcond, hstk, hmatch,
            List.filter_cons, takeThroughNonStackable]
      · have hmatch : matchingPromo items st cid mt coupon promo = false := by
          simp only [matchingPromo, Bool.and_eq_false_iff]
          right
          simpa using hcond
        simp [applyPromotions, hcm, hcond, hmatch, ih, List.filter_cons]
    · by_cases hcode : strT promo.code = true
      · have hmatch : matchingPromo items st cid mt coupon promo = false := by
          simp only [matchingPromo, Bool.and_eq_false_iff]
          left
          simp [Bool.or_eq_false_iff]
          exact ⟨by simpa using hcm, hcode⟩
        simp [applyPromotions, hcm, hcode, hmatch, ih, List.filter_cons]
      · by_cases hcond :
            checkPromotionConditions promo items st cid mt = true
        · have hmatch : matchingPromo items st cid mt coupon promo = true := by
            simp only [matchingPromo]
            simp [hcond, Bool.or_eq_true_iff]
            right
            simpa using hcode
          by_cases hstk : promo.isStackable = true
          · simp [applyPromotions, hcm, hcode, hcond, hstk, hmatch, ih,
              List.filter_cons, takeThroughNonStackable]
          · simp [applyPromotions, hcm, hcode, hcond, hstk, hmatch,
              List.filter_cons, takeThroughNonStackable]
        · have hmatch : matchingPromo items st cid mt coupon promo = false := by
            simp only [matchingPromo, Bool.and_eq_false_iff]
            right
            simpa using hcond
          simp [applyPromotions, hcm, hcode, hcond, hmatch, ih, List.filter_cons]

theorem capTruncates (m D : ℚ) (hm0 : m ≠ 0) :
    (if m ≠ 0 ∧ D > m then m else D) = (if D > m then m else D) := by
  by_cases hgt : D > m
  · rw [if_pos ⟨hm0, hgt⟩, if_pos hgt]
  · rw [if_neg (fun hc => hgt hc.2), if_neg hgt]

/-! ### Claims -/

/-- C5: for every evaluation with both the senior-citizen and PWD flags
set, only the senior-citizen government discount is applied (no `pwd`
entry ever appears, and setting the PWD flag changes nothing); and
whenever a membership tier id resolves to an active tier, the membership
discount is computed on `subtotal - governmentDiscount`, never on the raw
subtotal. -/
theorem C5_discount_precedence (settings : List DiscountSetting)
    (tiers : List MembershipTier) (subtotal : ℚ) (mt : Option Nat)
    (sc pwd : Bool) :
    (calculateDiscounts settings tiers subtotal true true mt =
      calculateDiscounts settings tiers subtotal true false mt) ∧
    (∀ d ∈ (calculateDiscounts settings tiers subtotal true true mt).appliedDiscounts,
      d.type ≠ "pwd") ∧
    (∀ tid tier, mt = some tid →
      tiers.find? (fun t => t.tid = tid ∧ t.isActive) = some tier →
      (calculateDiscounts settings tiers subtotal sc pwd mt).membershipDiscount =
        (subtotal -
          (calculateDiscounts settings tiers subtotal sc pwd mt).governmentDiscount) *
          (tier.discountPercentage / 100)) := by
  refine ⟨rfl, ?_, ?_⟩
  · intro d hd
    simp only [calculateDiscounts] at hd
    rw [if_pos trivial] at hd
    rcases List.mem_append.mp hd with h1 | h1
    · split at h1
      · simp only [List.mem_singleton] at h1
        subst h1
        show ("senior_citizen" : String) ≠ "pwd"
        decide
      · simp at h1
    · split at h1
      · simp at h1
      · split at h1
        · simp at h1
        · split at h1
          · simp only [List.mem_singleton] at h1
            subst h1
            show ("membership" : String) ≠ "pwd"
            decide
          · simp at h1
  · intro tid tier hmt htier
    simp only [calculateDiscounts, hmt, htier, if_true]
    repeat' split
    all_goals rfl

/-- C5 witness: both flags set with active SC/PWD settings and the Gold
tier: the applied list is SC + membership, and the membership base is
`200 - 40 = 160`. -/
theorem C5_discount_precedence_witness :
    (∀ d ∈ (calculateDiscounts [c5ScSetting, c5PwdSetting] [c5Tier] 200 true true
        (some 3)).appliedDiscounts, d.type ≠ "pwd") ∧
    (calculateDiscounts [c5ScSetting, c5PwdSetting] [c5Tier] 200 true true
        (some 3)).membershipDiscount =
      (200 -
        (calculateDiscounts [c5ScSetting, c5PwdSetting] [c5Tier] 200 true true
          (some 3)).governmentDiscount) * (c5Tier.discountPercentage / 100) := by
  constructor
  · exact (C5_discount_precedence [c5ScSetting, c5PwdSetting] [c5Tier] 200
      (some 3) true true).2.1
  · exact (C5_discount_precedence [c5ScSetting, c5PwdSetting] [c5Tier] 200
      (some 3) true true).2.2 3 c5Tier rfl (by decide)

/-- C6 counterexample: the claim says a promotion matching the supplied
coupon code is evaluated FIRST. Here the coupon promotion `c6Coupon`
matches the supplied code "SAVE" and its conditions hold, yet the
higher-priority codeless non-stackable `c6Auto` is evaluated before it
and stops the loop, so the coupon promotion is never applied — were it
evaluated first, it would appear in the applicable list. -/
theorem C6_promotion_order_counterexample :
    couponMatches (some "SAVE") c6Coupon = true ∧
    checkPromotionConditions c6Coupon c6Items (cartSubtotal c6Items) none none = true ∧
    c6Auto.priority > c6Coupon.priority ∧
    checkApplicable [c6Auto, c6Coupon] c6Items none none (some "SAVE") =
      ([c6Auto], 5) ∧
    c6Coupon ∉ (checkApplicable [c6Auto, c6Coupon] c6Items none none
      (some "SAVE")).1 := by
  refine ⟨by decide, by decide, by decide, ?_, by decide⟩
  decide

/-- C6 amended: all candidate promotions — the coupon-matched one and the
codeless auto-apply ones — are evaluated in ONE pass in list order (the
query's descending-priority order); a coded promotion is considered only
where it matches the supplied coupon code; the first matching
non-stackable promotion stops all further evaluation while matching
stackable promotions keep accumulating; the discount amount is the sum
over the applied promotions; and a priority-sorted input yields a
priority-sorted applied list. -/
theorem C6_promotion_order_amended (promos : List Promotion)
    (items : List CartItem) (cid mt : Option Nat) (coupon : Option String) :
    (checkApplicable promos items cid mt coupon).1 =
      takeThroughNonStackable (promos.filter
        (matchingPromo items (cartSubtotal items) cid mt coupon)) ∧
    (checkApplicable promos items cid mt coupon).2 =
      (((checkApplicable promos items cid mt coupon).1).map
        (fun p => calculateDiscount p items (cartSubtotal items))).sum ∧
    (List.Pairwise (fun a b => b.priority ≤ a.priority) promos →
      List.Pairwise (fun a b => b.priority ≤ a.priority)
        (checkApplicable promos items cid mt coupon).1) := by
  have h := applyPromotions_eq items (cartSubtotal items) cid mt coupon promos
  rw [checkApplicable_eq, h]
  refine ⟨rfl, rfl, ?_⟩
  intro hsorted
  exact hsorted.sublist
    ((takeThroughNonStackable_sublist _).trans (List.filter_sublist promos))

/-- C6 witness: on the concrete two-promotion store the loop applies only
the higher-priority auto promotion and its discount sum. -/
theorem C6_promotion_order_witness :
    (checkApplicable [c6Auto, c6Coupon] c6Items none none (some "SAVE")).1 =
      takeThroughNonStackable ([c6Auto, c6Coupon].filter
        (matchingPromo c6Items (cartSubtotal c6Items) none none (some "SAVE"))) ∧
    List.Pairwise (fun a b => b.priority ≤ a.priority)
      (checkApplicable [c6Auto, c6Coupon] c6Items none none (some "SAVE")).1 := by
  have h := C6_promotion_order_amended [c6Auto, c6Coupon] c6Items none none
    (some "SAVE")
  exact ⟨h.1, h.2.2 (by decide)⟩

/-- C7: the promotion discount equals, by type: percentage →
`subtotal * value/100`; fixed_amount → the flat value; buy_x_get_y → the
sum over each eligible item (in `targetProducts`, or all items when no
target list is configured) of
`floor(quantity / (buyQuantity + getQuantity)) * getQuantity * unitPrice`
(`freeSets` is that floor); and when `maxDiscountAmount` is configured
(nonzero, as `mapPromotion` guarantees) the amount is truncated to the
cap exactly when the computed amount exceeds it. -/
theorem C7_promotion_discount_amount (promo : Promotion)
    (items : List CartItem) (subtotal : ℚ) :
    (promo.maxDiscountAmount = none →
      (promo.promotionType = "percentage" →
        calculateDiscount promo items subtotal =
          subtotal * (promo.discountValue / 100)) ∧
      (promo.promotionType = "fixed_amount" →
        calculateDiscount promo items subtotal = promo.discountValue) ∧
      (∀ b g, promo.promotionType = "buy_x_get_y" →
        promo.buyQuantity = some b → promo.getQuantity = some g →
        b ≠ 0 → g ≠ 0 →
        calculateDiscount promo items subtotal =
          ((items.filter (fun i =>
              match promo.targetProducts with
              | none => true
              | some l => decide (i.productId ∈ l))).map (fun i =>
            ((freeSets i.quantity (b + g) : ℤ) : ℚ) * (g : ℚ) * i.price)).sum)) ∧
    (∀ m, promo.maxDiscountAmount = some m → m ≠ 0 →
      calculateDiscount promo items subtotal =
        (if calculateDiscount { promo with maxDiscountAmount := none }
            items subtotal > m
         then m
         else calculateDiscount { promo with maxDiscountAmount := none }
            items subtotal)) := by
  constructor
  · intro hnone
    refine ⟨?_, ?_, ?_⟩
    · intro htype
      simp [calculateDiscount, hnone, htype]
    · intro htype
      simp [calculateDiscount, hnone, htype]
    · intro b g htype hb hg hb0 hg0
      simp only [calculateDiscount, hnone, htype, hb, hg]
      rw [if_pos trivial, if_pos (show b ≠ 0 ∧ g ≠ 0 from ⟨hb0, hg0⟩)]
      have hfold := foldl_if_filter_sum
        (fun i => match promo.targetProducts with
          | none => true
          | some l => decide (i.productId ∈ l))
        (fun i => ((freeSets i.quantity (b + g) : ℤ) : ℚ) * (g : ℚ) * i.price)
        items 0
      simpa using hfold
  · intro m hm hm0
    simp only [calculateDiscount, hm]
    exact capTruncates m _ hm0

/-- C7 witness: the 10-percent promotion on a 200 cart computes 20,
truncated to its cap 3; the buy-2-get-1 promotion on a 7-unit line at
price 10 computes `floor(7/3) * 1 * 10 = 20`. -/
theorem C7_promotion_discount_amount_witness :
    calculateDiscount c7Pct c6Items 200 =
      (if calculateDiscount { c7Pct with maxDiscountAmount := none } c6Items 200 > 3
       then (3 : ℚ)
       else calculateDiscount { c7Pct with maxDiscountAmount := none } c6Items 200) ∧
    calculateDiscount { c7Pct with maxDiscountAmount := none } c6Items 200 =
      200 * (c7Pct.discountValue / 100) ∧
    calculateDiscount c7Bxgy c7Items 70 =
      ((c7Items.filter (fun i =>
          match c7Bxgy.targetProducts with
          | none => true
          | some l => decide (i.productId ∈ l))).map (fun i =>
        ((freeSets i.quantity (2 + 1) : ℤ) : ℚ) * ((1 : ℤ) : ℚ) * i.price)).sum ∧
    calculateDiscount c7Bxgy c7Items 70 = 20 := by
  refine ⟨?_, ?_, ?_, ?_⟩
  case refine_4 =>
    norm_num [calculateDiscount, c7Bxgy, c6Base, c7Items, freeSets, Rat.floor]
    rw [if_neg (by decide), if_neg (by decide)]
  · exact (C7_promotion_discount_amount c7Pct c6Items 200).2 3 rfl (by norm_num)
  · exact ((C7_promotion_discount_amount
      { c7Pct with maxDiscountAmount := none } c6Items 200).1 rfl).1 rfl
  · exact ((C7_promotion_discount_amount c7Bxgy c7Items 70).1 rfl).2.2 2 1
      rfl rfl rfl (by norm_num) (by norm_num)

/-- C9 counterexample: a cart line naming the nonexistent product 99 makes
`create` fail with a `BadRequestError` ("Product not found: 99"), not a
`NotFoundError` as the claim states. -/
theorem C9_missing_product_counterexample :
    create c9Data 7 c9DB = .error (.badRequest "Product not found: 99") ∧
    AppErr.isNotFound (AppErr.badRequest "Product not found: 99") = false := by
  exact ⟨rfl, rfl⟩

/-- C9 amended: for every cart line whose product id does not exist or is
soft-deleted, `create` fails — with a BadRequest-kind error (the source
throws `BadRequestError("Product not found: …")`), not NotFound — and
persists nothing. -/
theorem C9_missing_product_amended (db : DB) (data : CreateSaleData) (u : Nat)
    (hmissing : ∃ itm ∈ data.items, findProduct db itm.productId = none) :
    (create data u db).isOk = false ∧
    (∀ e, create data u db = .error e → e.isBadRequest = true) ∧
    applyCreate db (create data u db) = db := by
  obtain ⟨e, he⟩ :=
    processItems_fails_missing u data.isVatExempt data.items db hmissing
  have hc : create data u db = .error e := by
    unfold create
    rw [he]
  refine ⟨by rw [hc]; rfl, fun e' he' => create_err_kind he', by rw [hc]; rfl⟩

/-- C9 witness: the counterexample store, through the amended theorem. -/
theorem C9_missing_product_witness :
    (create c9Data 7 c9DB).isOk = false ∧
    applyCreate c9DB (create c9Data 7 c9DB) = c9DB := by
  have h := C9_missing_product_amended c9DB c9Data 7
    ⟨{ baseLine with productId := 99 }, by decide, by decide⟩
  exact ⟨h.1, h.2.2⟩

/-- C8 counterexample: on a store whose supervisor account is INACTIVE
(`isActive = false`) but holds `can_authorize_void` with PIN "1234":
a wrong PIN produces a BadRequest-kind error ("Invalid supervisor PIN"),
not an Unauthorized-kind one, and the correct PIN lets the void SUCCEED —
the engine never checks the account's active status. -/
theorem C8_supervisor_authorization_counterexample :
    (findUser c8DB 7).map (fun s => s.isActive) = some false ∧
    voidSale 50 "damaged" 7 "9999" 9 c8DB =
      .error (.badRequest "Invalid supervisor PIN") ∧
    AppErr.isUnauthorized (AppErr.badRequest "Invalid supervisor PIN") = false ∧
    (voidSale 50 "damaged" 7 "1234" 9 c8DB).isOk = true := by
  exact ⟨rfl, rfl, rfl, rfl⟩

/-- C8 amended: before applying any effect, the supervisor-PIN void/refund
path verifies the supervisor exists (else NotFound), holds the matching
capability (else Forbidden), and has a PIN set and matching (else
BadRequest — not Unauthorized); the account's active status is NOT
checked; every such failure leaves the store unchanged, distinct from a
missing-reason validation failure (which the HTTP layer raises before the
engine runs). -/
theorem C8_supervisor_authorization_amended (db : DB) (saleId : Nat)
    (reason : String) (supId : Nat) (pin : String) (actor : Nat) :
    (findUser db supId = none →
      voidSale saleId reason supId pin actor db =
        .error (.notFound "Supervisor not found") ∧
      refundSale saleId reason supId pin actor db =
        .error (.notFound "Supervisor not found")) ∧
    (∀ sup, findUser db supId = some sup →
      (sup.canAuthorizeVoid = false →
        voidSale saleId reason supId pin actor db =
          .error (.forbidden "User not authorized to approve voids")) ∧
      (sup.canAuthorizeRefund = false →
        refundSale saleId reason supId pin actor db =
          .error (.forbidden "User not authorized to approve refunds")) ∧
      (sup.canAuthorizeVoid = true → strT sup.supervisorPinSecret = false →
        voidSale saleId reason supId pin actor db =
          .error (.badRequest "Supervisor PIN not set")) ∧
      (sup.canAuthorizeRefund = true → strT sup.supervisorPinSecret = false →
        refundSale saleId reason supId pin actor db =
          .error (.badRequest "Supervisor PIN not set")) ∧
      (sup.canAuthorizeVoid = true → strT sup.supervisorPinSecret = true →
        sup.supervisorPinSecret ≠ some pin →
        voidSale saleId reason supId pin actor db =
          .error (.badRequest "Invalid supervisor PIN")) ∧
      (sup.canAuthorizeRefund = true → strT sup.supervisorPinSecret = true →
        sup.supervisorPinSecret ≠ some pin →
        refundSale saleId reason supId pin actor db =
          .error (.badRequest "Invalid supervisor PIN"))) ∧
    (∀ e, voidSale saleId reason supId pin actor db = .error e →
      applyResult db (voidSale saleId reason supId pin actor db) = db) ∧
    (∀ e, refundSale saleId reason supId pin actor db = .error e →
      applyResult db (refundSale saleId reason supId pin actor db) = db) := by
  refine ⟨?_, ?_, ?_, ?_⟩
  · intro hnone
    constructor <;>
      simp [voidSale, refundSale, verifySupervisorVoid, verifySupervisorRefund,
        hnone]
  · intro sup hsup
    refine ⟨?_, ?_, ?_, ?_, ?_, ?_⟩
    · intro hcap
      simp [voidSale, verifySupervisorVoid, hsup, hcap]
    · intro hcap
      simp [refundSale, verifySupervisorRefund, hsup, hcap]
    · intro hcap hset
      simp [voidSale, verifySupervisorVoid, hsup, hcap, hset]
    · intro hcap hset
      simp [refundSale, verifySupervisorRefund, hsup, hcap, hset]
    · intro hcap hset hne
      simp [voidSale, verifySupervisorVoid, hsup, hcap, hset, hne]
    · intro hcap hset hne
      simp [refundSale, verifySupervisorRefund, hsup, hcap, hset, hne]
  · intro e he
    rw [he]
    rfl
  · intro e he
    rw [he]
    rfl

/-- C8 witness: on the counterexample store, a wrong PIN fails with the
BadRequest error and leaves the store unchanged. -/
theorem C8_supervisor_authorization_witness :
    voidSale 50 "damaged" 7 "9999" 9 c8DB =
      .error (.badRequest "Invalid supervisor PIN") ∧
    applyResult c8DB (voidSale 50 "damaged" 7 "9999" 9 c8DB) = c8DB := by
  have h := C8_supervisor_authorization_amended c8DB 50 "damaged" 7 "9999" 9
  have hv := ((h.2.1 baseSupervisor (by decide)).2.2.2.2.1) rfl rfl (by decide)
  exact ⟨hv, h.2.2.1 _ hv⟩

theorem fetchCompletedSale_ok {verb : String} {sid : Nat} {db : DB}
    {s : SaleRec} (h : fetchCompletedSale verb sid db = .ok s) :
    findSale db sid = some s ∧ s.status = "completed" := by
  unfold fetchCompletedSale at h
  split at h
  · exact absurd h (by simp)
  next sale hfs =>
    split at h
    · exact absurd h (by simp)
    next hst =>
      simp only [Except.ok.injEq] at h
      subst h
      exact ⟨hfs, by simpa using hst⟩

theorem voidSaleSelf_ok {sid : Nat} {r : String} {a : Nat} {db db1 : DB}
    (h : voidSaleSelfAuthorized sid r a db = .ok db1) :
    ∃ s, findSale db sid = some s ∧ s.status = "completed" ∧
      db1 = voidApply sid r a a db s := by
  unfold voidSaleSelfAuthorized at h
  split at h
  · exact absurd h (by simp)
  next sale hfetch =>
    simp only [Except.ok.injEq] at h
    obtain ⟨hfs, hst⟩ := fetchCompletedSale_ok hfetch
    exact ⟨sale, hfs, hst, h.symm⟩

theorem find?_sid_map (sid : Nat) (f : SaleRec → SaleRec)
    (hf : ∀ x, (f x).sid = x.sid) :
    ∀ (l : List SaleRec),
      (l.map f).find? (fun s => s.sid = sid) =
        (l.find? (fun s => s.sid = sid)).map f
  | [] => rfl
  | x :: xs => by
    by_cases hx : x.sid = sid
    · rw [List.map_cons,
        List.find?_cons_of_pos _ (by simp [hf, hx]),
        List.find?_cons_of_pos _ (by simp [hx]),
        Option.map_some']
    · rw [List.map_cons,
        List.find?_cons_of_neg _ (by simp [hf, hx]),
        List.find?_cons_of_neg _ (by simp [hx])]
      exact find?_sid_map sid f hf xs

theorem findSale_after_voidApply {db : DB} {sid : Nat} {s : SaleRec}
    (hfs : findSale db sid = some s) (reason : String) (auth actor : Nat)
    (sale' : SaleRec) :
    findSale (voidApply sid reason auth actor db sale') sid =
      some { s with
             status := "voided"
             voidedBy := some actor
             voidAuthorizedBy := some auth
             voidReason := some reason } := by
  have hobs := (voidApply_obs sid reason auth actor db sale').1
  unfold findSale at hfs ⊢
  have hsid : s.sid = sid := by
    have := List.find?_some hfs
    simpa using this
  rw [hobs]
  rw [find?_sid_map sid (voidUpd sid reason auth actor)
    (fun x => by unfold voidUpd; split <;> rfl)]
  rw [hfs]
  simp only [Option.map_some']
  unfold voidUpd
  rw [if_pos hsid]

/-- C3: void and refund — on either the supervisor-PIN or the
self-authorized path — succeed only on a sale in `completed` status; on a
sale in any other status they fail with a BadRequest error whose message
names the current status ("Cannot void/refund a ⟨status⟩ sale") and leave
the store untouched; in particular a second void of the same sale fails
("Cannot void a voided sale") and does not re-apply any stock or loyalty
reversal. -/
theorem C3_void_refund_state_machine (db : DB) (sid : Nat) (s : SaleRec)
    (reason : String) (supId : Nat) (pin : String) (actor : Nat)
    (sup : UserAcct) (hs : findSale db sid = some s)
    (hst : s.status ≠ "completed") (hsup : findUser db supId = some sup)
    (hcv : sup.canAuthorizeVoid = true) (hcr : sup.canAuthorizeRefund = true)
    (hpin : sup.supervisorPinSecret = some pin) (hpin0 : pin ≠ "") :
    (voidSale sid reason supId pin actor db =
        .error (.badRequest ("Cannot void a " ++ s.status ++ " sale")) ∧
      applyResult db (voidSale sid reason supId pin actor db) = db) ∧
    (voidSaleSelfAuthorized sid reason actor db =
        .error (.badRequest ("Cannot void a " ++ s.status ++ " sale")) ∧
      applyResult db (voidSaleSelfAuthorized sid reason actor db) = db) ∧
    (refundSale sid reason supId pin actor db =
        .error (.badRequest ("Cannot refund a " ++ s.status ++ " sale")) ∧
      applyResult db (refundSale sid reason supId pin actor db) = db) ∧
    (refundSaleSelfAuthorized sid reason actor db =
        .error (.badRequest ("Cannot refund a " ++ s.status ++ " sale")) ∧
      applyResult db (refundSaleSelfAuthorized sid reason actor db) = db) ∧
    (∀ (db0 db1 : DB) (sid' : Nat) (r' : String) (a' : Nat),
      voidSaleSelfAuthorized sid' r' a' db0 = .ok db1 →
      voidSaleSelfAuthorized sid' r' a' db1 =
          .error (.badRequest "Cannot void a voided sale") ∧
        applyResult db1 (voidSaleSelfAuthorized sid' r' a' db1) = db1) := by
  have hfetchVoid : fetchCompletedSale "void" sid db =
      .error (.badRequest ("Cannot void a " ++ s.status ++ " sale")) := by
    simp only [fetchCompletedSale, hs]
    rw [if_pos hst]
    rfl
  have hfetchRefund : fetchCompletedSale "refund" sid db =
      .error (.badRequest ("Cannot refund a " ++ s.status ++ " sale")) := by
    simp only [fetchCompletedSale, hs]
    rw [if_pos hst]
    rfl
  have hvs : verifySupervisorVoid db supId pin = .ok sup := by
    simp only [verifySupervisorVoid, hsup]
    rw [if_neg (by simp [hcv])]
    rw [if_neg (by simp [strT, hpin, hpin0])]
    rw [if_neg (by simp [hpin])]
  have hrs : verifySupervisorRefund db supId pin = .ok sup := by
    simp only [verifySupervisorRefund, hsup]
    rw [if_neg (by simp [hcr])]
    rw [if_neg (by simp [strT, hpin, hpin0])]
    rw [if_neg (by simp [hpin])]
  have h1 : voidSale sid reason supId pin actor db =
      .error (.badRequest ("Cannot void a " ++ s.status ++ " sale")) := by
    simp only [voidSale, hvs, hfetchVoid]
  have h2 : voidSaleSelfAuthorized sid reason actor db =
      .error (.badRequest ("Cannot void a " ++ s.status ++ " sale")) := by
    simp only [voidSaleSelfAuthorized, hfetchVoid]
  have h3 : refundSale sid reason supId pin actor db =
      .error (.badRequest ("Cannot refund a " ++ s.status ++ " sale")) := by
    simp only [refundSale, hrs, hfetchRefund]
  have h4 : refundSaleSelfAuthorized sid reason actor db =
      .error (.badRequest ("Cannot refund a " ++ s.status ++ " sale")) := by
    simp only [refundSaleSelfAuthorized, hfetchRefund]
  refine ⟨⟨h1, by rw [h1]; rfl⟩, ⟨h2, by rw [h2]; rfl⟩,
    ⟨h3, by rw [h3]; rfl⟩, ⟨h4, by rw [h4]; rfl⟩, ?_⟩
  intro db0 db1 sid' r' a' hok
  obtain ⟨s0, hfs0, hst0, hdb1⟩ := voidSaleSelf_ok hok
  have hfind1 : findSale db1 sid' =
      some { s0 with
             status := "voided"
             voidedBy := some a'
             voidAuthorizedBy := some a'
             voidReason := some r' } := by
    rw [hdb1]
    exact findSale_after_voidApply hfs0 r' a' a' s0
  have hfetch1 : fetchCompletedSale "void" sid' db1 =
      .error (.badRequest "Cannot void a voided sale") := by
    simp only [fetchCompletedSale, hfind1]
    rw [if_pos (show ("voided" : String) ≠ "completed" by decide)]
    rfl
  have hsecond : voidSaleSelfAuthorized sid' r' a' db1 =
      .error (.badRequest "Cannot void a voided sale") := by
    simp only [voidSaleSelfAuthorized, hfetch1]
  exact ⟨hsecond, by rw [hsecond]; rfl⟩

/-- C3 witness: the pending sale 50 cannot be voided or refunded on any
path, and voiding the completed sale 51 twice fails the second time,
leaving the once-voided store unchanged. -/
theorem C3_void_refund_state_machine_witness :
    (voidSale 50 "bad" 7 "1234" 9 c3PendingDB =
      .error (.badRequest "Cannot void a pending sale")) ∧
    (voidSaleSelfAuthorized 50 "bad" 9 c3PendingDB =
      .error (.badRequest "Cannot void a pending sale")) ∧
    (refundSale 50 "bad" 7 "1234" 9 c3PendingDB =
      .error (.badRequest "Cannot refund a pending sale")) ∧
    (voidSaleSelfAuthorized 51 "dup" 9
        (applyResult c3PendingDB (voidSaleSelfAuthorized 51 "dup" 9 c3PendingDB)) =
      .error (.badRequest "Cannot void a voided sale")) := by
  have h := C3_void_refund_state_machine c3PendingDB 50
    { c8Sale with status := "pending" } "bad" 7 "1234" 9 baseSupervisor
    rfl (by decide) rfl rfl rfl rfl (by decide)
  refine ⟨h.1.1, h.2.1.1, h.2.2.1.1, ?_⟩
  have hfirst : voidSaleSelfAuthorized 51 "dup" 9 c3PendingDB =
      .ok (applyResult c3PendingDB (voidSaleSelfAuthorized 51 "dup" 9 c3PendingDB)) := rfl
  exact (h.2.2.2.2 c3PendingDB _ 51 "dup" 9 hfirst).1

/-- C1 counterexample: the sale `c1Data` (5 points to redeem, NO customer
attached) is created successfully with persisted `points_redeemed = 5`,
`subtotal = 100`, `discount_amount = 0`, `tax_amount = 0` and
`total_amount = 100` — so the persisted total does NOT equal
subtotal − discount + tax − (points redeemed valued 1:1) = 95: the
points value is only deducted when an existing customer is attached. -/
theorem C1_monetary_reconciliation_counterexample :
    (saleOf (create c1Data 7 c1DB)).map
        (fun s => (s.totalAmount, s.subtotal, s.discountAmount, s.taxAmount,
          s.pointsRedeemed, s.pointsValueRedeemed)) =
      some (100, 100, 0, 0, 5, 0) ∧
    ((100 : ℚ) ≠ 100 - 0 + 0 - ((5 : ℤ) : ℚ)) := by
  constructor
  · norm_num [saleOf, create, processItems, computePoints, persistSale, mkSale,
      findProduct, findCustomer, c1Data, c1DB, baseData, baseLine, baseProduct,
      emptyDB, strOrNull, strT, saleStep, bumpStock, ItemData.toRow,
      updateCustomerStats, custUpd]
  · norm_num

/-- C1 (amended): for every sale successfully created by `create`, the
persisted `total_amount` equals subtotal − discount_amount + tax_amount −
points_value_redeemed, where subtotal is the sum over cart lines of
effective unit price × quantity, tax_amount the sum of per-line taxes,
discount_amount the sale-level discount; `points_redeemed` is persisted
verbatim from the request, while `points_value_redeemed` (valued 1:1) is
nonzero only when the request attaches an existing customer and redeems a
positive number of points — otherwise it is 0 even if `points_redeemed`
is positive. -/
theorem C1_monetary_reconciliation_amended {data : CreateSaleData} {u : Nat}
    {db dbF : DB} {S : SaleRec} (h : create data u db = .ok (dbF, S)) :
    S.totalAmount =
        S.subtotal - S.discountAmount + S.taxAmount - S.pointsValueRedeemed ∧
    S.subtotal =
        (data.items.map (fun itm => lineUnitPrice db itm * (itm.quantity : ℚ))).sum ∧
    S.taxAmount = (data.items.map (lineTax db data.isVatExempt)).sum ∧
    S.discountAmount = data.discountAmount.getD 0 ∧
    S.pointsRedeemed = data.pointsToRedeem.getD 0 ∧
    S.pointsValueRedeemed =
      (match data.customerId with
       | some cid =>
         match findCustomer db cid with
         | some _ => if S.pointsRedeemed > 0 then (S.pointsRedeemed : ℚ) else 0
         | none => 0
       | none => 0) := by
  obtain ⟨db1, sub, tax, l, pe, pr, pv, hpi, hcp, hdbF, hS⟩ := create_ok_elim h
  obtain ⟨hsum_s, hsum_t⟩ :=
    processItems_ok_sums u data.isVatExempt data.items db db1 sub tax l hpi
  obtain ⟨hpr, hpv⟩ := computePoints_ok_val hcp
  have hcust : db1.customers = db.customers :=
    (processItems_ok_inv u data.isVatExempt data.items db db1 sub tax l hpi).2.1
  subst hS
  refine ⟨rfl, hsum_s, hsum_t, rfl, hpr, ?_⟩
  show pv = _
  rw [hpv]
  cases data.customerId with
  | none => rfl
  | some cid =>
    have hfc : findCustomer db1 cid = findCustomer db cid := by
      unfold findCustomer
      rw [hcust]
    simp only [hfc, mkSale]

/-- C1 witness: on the concrete store `c1DB`, `create c1Data` commits the
pair `(c1DBW, c1SaleW)` and the amended reconciliation identity holds for
the inserted row. -/
theorem C1_monetary_reconciliation_witness :
    create c1Data 7 c1DB = .ok (c1DBW, c1SaleW) ∧
    c1SaleW.totalAmount = c1SaleW.subtotal - c1SaleW.discountAmount +
        c1SaleW.taxAmount - c1SaleW.pointsValueRedeemed ∧
    c1SaleW.discountAmount = c1Data.discountAmount.getD 0 ∧
    c1SaleW.pointsRedeemed = c1Data.pointsToRedeem.getD 0 := by
  have hc : create c1Data 7 c1DB = .ok (c1DBW, c1SaleW) := by
    norm_num [c1DBW, c1SaleW, applyCreate, create, processItems, computePoints,
      persistSale, mkSale, findProduct, findCustomer, c1Data, c1DB, baseData,
      baseLine, baseProduct, emptyDB, strOrNull, strT, saleStep, bumpStock,
      ItemData.toRow, updateCustomerStats, custUpd]
  have h := C1_monetary_reconciliation_amended hc
  exact ⟨hc, h.1, h.2.2.2.1, h.2.2.2.2.1⟩

theorem create_tendered_indep (data : CreateSaleData) (u : Nat) (db : DB)
    (t' : Option ℚ) :
    (∃ r, create { data with amountTendered := t' } u db = .ok r) ↔
      (∃ r, create data u db = .ok r) := by
  unfold create
  rw [show processItems u
      ({ data with amountTendered := t' } : CreateSaleData).isVatExempt db
      ({ data with amountTendered := t' } : CreateSaleData).items =
      processItems u data.isVatExempt db data.items from rfl]
  split
  · simp
  next x db1 sub tax l heq =>
    rw [show computePoints db1 { data with amountTendered := t' }
        (sub - ({ data with amountTendered := t' } : CreateSaleData).discountAmount.getD 0 + tax) =
        computePoints db1 data (sub - data.discountAmount.getD 0 + tax) from rfl]
    split
    · simp
    · simp

/-- C10 counterexample: the request `c10Data` tenders `0` against a
computed total of `100 − 200 + 0 = −100`; the difference
tendered − total = `100` is strictly positive, yet the sale is created
with `change_amount = null`, because a tendered amount of `0` is falsy
and skips the change computation. -/
theorem C10_change_amount_counterexample :
    (saleOf (create c10Data 7 c1DB)).map
        (fun s => (s.changeAmount, s.subtotal, s.discountAmount, s.taxAmount)) =
      some (none, 100, 200, 0) ∧
    ((0 : ℚ) - (100 - 200 + 0) > 0) := by
  constructor
  · norm_num [saleOf, create, processItems, computePoints, persistSale, mkSale,
      findProduct, findCustomer, c10Data, c1DB, baseData, baseLine, baseProduct,
      emptyDB, strOrNull, strT, saleStep, bumpStock, ItemData.toRow,
      updateCustomerStats, custUpd]
  · norm_num

/-- C10 (amended): whether `create` succeeds never depends on the tendered
amount — replacing `amountTendered` by any other value preserves success;
and on success the persisted `change_amount` equals
tendered − (subtotal − discount + tax) when the tendered amount is
NONZERO and that difference is strictly positive, and is null otherwise
(including when the tendered amount is absent or exactly `0`, the latter
being falsy in the source). -/
theorem C10_change_amount_amended (data : CreateSaleData) (u : Nat) (db : DB) :
    (∀ t' : Option ℚ,
      ((∃ r, create { data with amountTendered := t' } u db = .ok r) ↔
        (∃ r, create data u db = .ok r))) ∧
    (∀ (dbF : DB) (S : SaleRec), create data u db = .ok (dbF, S) →
      S.changeAmount =
        (match data.amountTendered with
         | some t =>
           if t ≠ 0 ∧ 0 < t - (S.subtotal - S.discountAmount + S.taxAmount) then
             some (t - (S.subtotal - S.discountAmount + S.taxAmount))
           else none
         | none => none)) := by
  refine ⟨fun t' => create_tendered_indep data u db t', ?_⟩
  intro dbF S h
  obtain ⟨db1, sub, tax, l, pe, pr, pv, hpi, hcp, hdbF, hS⟩ := create_ok_elim h
  subst hS
  cases hten : data.amountTendered with
  | none =>
    simp only [mkSale, hten]
    norm_num
  | some t =>
    simp only [mkSale, hten]
    by_cases ht0 : t = 0
    · subst ht0
      norm_num
    · by_cases hpos :
          0 < t - (sub - data.discountAmount.getD 0 + tax)
      · simp [ht0, hpos]
      · simp [ht0, hpos]

/-- C10 witness: with 150 tendered against a 100 total, `create` commits
`(c10DBW, c10SaleW)` and the amended change formula yields
`change_amount = 50`. -/
theorem C10_change_amount_witness :
    create c10DataPaid 7 c1DB = .ok (c10DBW, c10SaleW) ∧
    c10SaleW.changeAmount = some 50 := by
  have hc : create c10DataPaid 7 c1DB = .ok (c10DBW, c10SaleW) := by
    norm_num [c10DBW, c10SaleW, applyCreate, create, processItems, computePoints,
      persistSale, mkSale, findProduct, findCustomer, c10DataPaid, c1DB, baseData,
      baseLine, baseProduct, emptyDB, strOrNull, strT, saleStep, bumpStock,
      ItemData.toRow, updateCustomerStats, custUpd]
  have h := (C10_change_amount_amended c10DataPaid 7 c1DB).2 c10DBW c10SaleW hc
  refine ⟨hc, ?_⟩
  rw [h]
  norm_num [c10DataPaid, baseData, c10SaleW, mkSale]

/-- C4 counterexample: against product 1 (tracked, stock 2) the cart
`c4Data` whose first line has quantity −100 and whose second line
requests 5 units — more than the available 2 — is created SUCCESSFULLY:
the negative first line bumps the running stock to 102 before the second
line's check, and the committed stock is 97. The insufficient-stock
guard therefore does not protect every line of the cart. -/
theorem C4_insufficient_stock_counterexample :
    (findProduct c4DB 1).map (fun p => (p.trackInventory, p.currentStock)) =
      some (true, 2) ∧
    c4Data.items.map (fun itm => (itm.productId, itm.quantity)) =
      [(1, -100), (1, 5)] ∧
    (saleOf (create c4Data 7 c4DB)).isSome = true ∧
    stockOf (applyCreate c4DB (create c4Data 7 c4DB)) 1 = 97 := by
  refine ⟨rfl, rfl, ?_, ?_⟩
  · norm_num [saleOf, create, processItems, computePoints, persistSale, mkSale,
      findProduct, findCustomer, c4Data, c4DB, c4Product, baseData, baseLine,
      baseProduct, emptyDB, strOrNull, strT, saleStep, bumpStock, ItemData.toRow,
      updateCustomerStats, custUpd]
  · norm_num [stockOf, findProductAny, applyCreate, saleOf, create, processItems,
      computePoints, persistSale, mkSale, findProduct, findCustomer, c4Data, c4DB,
      c4Product, baseData, baseLine, baseProduct, emptyDB, strOrNull, strT,
      saleStep, bumpStock, ItemData.toRow, updateCustomerStats, custUpd]

/-- C4 (amended): when every cart line's quantity is nonnegative, a cart
containing a line whose tracked product has stock below the requested
quantity makes `create` fail with a BadRequest-kind error, and the
rolled-back caller state is exactly the pre-call state — no stock
movement, sale row, sale item, or loyalty mutation is persisted. -/
theorem C4_insufficient_stock_amended (data : CreateSaleData) (u : Nat) (db : DB)
    (hq : ∀ itm ∈ data.items, 0 ≤ itm.quantity)
    (hins : ∃ itm ∈ data.items, ∃ p, findProduct db itm.productId = some p ∧
      p.trackInventory = true ∧ p.currentStock < itm.quantity) :
    ∃ e, create data u db = .error e ∧ e.isBadRequest = true ∧
      applyCreate db (create data u db) = db := by
  obtain ⟨e, he⟩ :=
    processItems_fails_insufficient u data.isVatExempt data.items db hq hins
  have hcreate : create data u db = .error e := by
    unfold create
    simp only [he]
  exact ⟨e, hcreate,
    processItems_err_kind u data.isVatExempt data.items db e he,
    by rw [hcreate]; rfl⟩

/-- C4 witness: a single-line cart requesting 5 units of the stock-2
product is rejected with a BadRequest-kind error and commits nothing. -/
theorem C4_insufficient_stock_witness :
    ∃ e, create c4DataPlain 7 c4DB = .error e ∧ e.isBadRequest = true ∧
      applyCreate c4DB (create c4DataPlain 7 c4DB) = c4DB := by
  apply C4_insufficient_stock_amended
  · intro itm him
    rw [show c4DataPlain.items = [{ baseLine with quantity := 5 }] from rfl] at him
    rcases List.mem_singleton.mp him with rfl
    decide
  · exact ⟨{ baseLine with quantity := 5 },
      by rw [show c4DataPlain.items = [{ baseLine with quantity := 5 }] from rfl];
         exact List.mem_singleton.mpr rfl,
      c4Product, rfl, rfl, by decide⟩

theorem voidSale_ok {sid : Nat} {r : String} {supId : Nat} {pin : String}
    {a : Nat} {db db1 : DB}
    (h : voidSale sid r supId pin a db = .ok db1) :
    ∃ s, findSale db sid = some s ∧ s.status = "completed" ∧
      db1 = voidApply sid r supId a db s := by
  unfold voidSale at h
  split at h
  · exact absurd h (by simp)
  next sup hver =>
    split at h
    · exact absurd h (by simp)
    next sale hfetch =>
      simp only [Except.ok.injEq] at h
      obtain ⟨hfs, hst⟩ := fetchCompletedSale_ok hfetch
      exact ⟨sale, hfs, hst, h.symm⟩

theorem isSome_findProductAny_congr {db₁ db₂ : DB}
    (h : db₁.products.map stripStock = db₂.products.map stripStock) (y : Nat) :
    (findProductAny db₁ y).isSome = (findProductAny db₂ y).isSome := by
  have hmap := findProductAny_strip_congr h y
  cases h1 : findProductAny db₁ y <;> cases h2 : findProductAny db₂ y <;>
    rw [h1, h2] at hmap <;> simp at hmap ⊢

theorem processItems_ok_entries (u : Nat) (v : Bool) :
    ∀ (items : List SaleItem) (db db' : DB) (s t : ℚ) (l : List ItemData),
      processItems u v db items = .ok (db', s, t, l) →
      ∀ e ∈ l, (findProductAny db e.productId).isSome = true
  | [], db, db', s, t, l, h => by
    simp only [processItems, Except.ok.injEq, Prod.mk.injEq] at h
    obtain ⟨-, -, -, h4⟩ := h
    subst h4
    intro e he
    exact absurd he (List.not_mem_nil e)
  | itm :: rest, db, db', s, t, l, h => by
    simp only [processItems] at h
    split at h
    · exact absurd h (by simp)
    next p hfp =>
      split at h
      · exact absurd h (by simp)
      next hstock =>
        split at h
        · exact absurd h (by simp)
        next dbR sR tR lR hrest =>
          simp only [Except.ok.injEq, Prod.mk.injEq] at h
          obtain ⟨-, -, -, hl⟩ := h
          subst hl
          intro e he
          rcases List.mem_cons.mp he with rfl | hmem
          · show (findProductAny db p.pid).isSome = true
            unfold findProductAny
            rw [List.find?_isSome]
            exact ⟨p, List.mem_of_find?_eq_some hfp, by simp⟩
          · have ih := processItems_ok_entries u v rest _ _ _ _ _ hrest e hmem
            by_cases htrack : p.trackInventory = true
            · rw [if_pos htrack] at ih
              rw [← isSome_findProductAny_congr (saleStep_strip u p itm db) e.productId]
              exact ih
            · rw [if_neg htrack] at ih
              exact ih

theorem rowQty_map_toRow (pid sid : Nat) :
    ∀ (l : List ItemData),
      rowQty pid (l.map (fun e => e.toRow sid)) = soldQty pid l
  | [] => rfl
  | e :: rest => by
    rw [List.map_cons, rowQty_cons, soldQty_cons, rowQty_map_toRow pid sid rest]
    rfl

/-- C2 (amended): creating a sale and immediately voiding it — with no
intervening operation — restores every product's stock and every
customer row exactly, PROVIDED every cart line names an
inventory-tracked product and no loyalty points are redeemed; the void's
stock restoration applies to every sale item unconditionally, and the
loyalty/spend reversal cancels the creation's update exactly when the
redeemed points value is zero. -/
theorem C2_reversal_roundtrip_amended (data : CreateSaleData) (u : Nat)
    (db dbC dbV : DB) (S : SaleRec) (reason : String) (supId actor : Nat)
    (pin : String)
    (htrk : ∀ itm ∈ data.items, ∀ p, findProduct db itm.productId = some p →
      p.trackInventory = true)
    (hnr : data.pointsToRedeem = none)
    (hfresh : FreshSaleId db)
    (hcreate : create data u db = .ok (dbC, S))
    (hvoid : voidSale S.sid reason supId pin actor dbC = .ok dbV) :
    (∀ pid, stockOf dbV pid = stockOf db pid) ∧
    dbV.customers = db.customers ∧
    (∀ cid, findCustomer dbV cid = findCustomer db cid) := by
  obtain ⟨db1, sub, tax, l, pe, pr, pv, hpi, hcp, hdbC, hS⟩ := create_ok_elim hcreate
  obtain ⟨hpr, hpv⟩ := computePoints_ok_val hcp
  have hpr0 : pr = 0 := by rw [hpr, hnr]; rfl
  subst hpr0
  have hpv0 : pv = 0 := by
    rw [hpv]
    cases data.customerId with
    | none => rfl
    | some cid =>
      cases hfc : findCustomer db1 cid with
      | none => simp [hfc]
      | some c => simp [hfc]
  subst hpv0
  obtain ⟨i1, i2, i3, i4, i5, i6, i7, i8, i9⟩ :=
    processItems_ok_inv u data.isVatExempt data.items db db1 sub tax l hpi
  obtain ⟨p1, p2, p3, p4, p5, p6, p7⟩ := persistSale_fst data u db1 sub tax l pe 0 0
  rw [← hdbC] at p1 p2 p3 p4 p5 p6 p7
  subst hS
  rw [show (mkSale data u db1.nextSaleId sub tax pe 0 0).sid = db1.nextSaleId
    from rfl] at hvoid
  obtain ⟨s0, hfs0, hst0, hdbV⟩ := voidSale_ok hvoid
  have hfind : findSale dbC db1.nextSaleId =
      some (mkSale data u db1.nextSaleId sub tax pe 0 0) := by
    unfold findSale
    rw [p4, i4, List.find?_append]
    have hnone : db.sales.find? (fun s => s.sid = db1.nextSaleId) = none := by
      rw [List.find?_eq_none]
      intro s hs
      simp only [decide_eq_true_eq]
      rw [i9]
      exact hfresh.1 s hs
    rw [hnone, Option.none_or, List.find?_cons_of_pos _ (by simp [mkSale])]
  obtain rfl := Option.some.inj (hfs0.symm.trans hfind)
  have hfilter : dbC.saleItems.filter (fun r => r.saleId = db1.nextSaleId) =
      l.map (fun e => e.toRow db1.nextSaleId) := by
    rw [p5, i5, List.filter_append]
    have h1 : db.saleItems.filter (fun r => r.saleId = db1.nextSaleId) = [] := by
      rw [List.filter_eq_nil_iff]
      intro r hr
      simp only [decide_eq_true_eq]
      rw [i9]
      exact hfresh.2 r hr
    have h2 : (l.map (fun e => e.toRow db1.nextSaleId)).filter
        (fun r => r.saleId = db1.nextSaleId) =
        l.map (fun e => e.toRow db1.nextSaleId) := by
      rw [List.filter_eq_self]
      intro r hr
      obtain ⟨e, he, rfl⟩ := List.mem_map.mp hr
      simp [ItemData.toRow]
    rw [h1, h2, List.nil_append]
  have hstrip : dbC.products.map stripStock = db.products.map stripStock := by
    rw [p1, i1]
  have hpres : ∀ r ∈ dbC.saleItems.filter (fun r => r.saleId = db1.nextSaleId),
      (findProductAny dbC r.productId).isSome = true := by
    intro r hr
    rw [hfilter] at hr
    obtain ⟨e, he, rfl⟩ := List.mem_map.mp hr
    show (findProductAny dbC e.productId).isSome = true
    rw [isSome_findProductAny_congr hstrip e.productId]
    exact processItems_ok_entries u data.isVatExempt data.items db db1 sub tax l
      hpi e he
  have hcancel : ∀ (cid : Nat) (c : Customer),
      custRev cid (mkSale data u db1.nextSaleId sub tax pe 0 0)
        (custUpd cid pe 0 (sub - data.discountAmount.getD 0 + tax) c) = c := by
    intro cid c
    obtain ⟨ccid, cpts, cmul, cspend, ctx⟩ := c
    unfold custUpd custRev
    by_cases hc : ccid = cid
    · rw [if_pos hc, if_pos hc]
      simp only [mkSale, Customer.mk.injEq]
      refine ⟨?_, ?_, ?_, ?_, ?_⟩ <;> first | trivial | ring
    · rw [if_neg hc, if_neg hc]
  refine ⟨?_, ?_, ?_⟩
  · intro pid
    rw [hdbV, voidApply_stockOf db1.nextSaleId reason supId actor dbC
      (mkSale data u db1.nextSaleId sub tax pe 0 0) hpres pid]
    rw [hfilter, rowQty_map_toRow, stockOf_eq_of_products p1 pid,
      processItems_ok_stock u data.isVatExempt data.items db db1 sub tax l
        htrk hpi pid]
    ring
  · rw [hdbV]
    have hobs := (voidApply_obs db1.nextSaleId reason supId actor dbC
      (mkSale data u db1.nextSaleId sub tax pe 0 0)).2.2.2
    rw [hobs]
    rw [show (mkSale data u db1.nextSaleId sub tax pe 0 0).customerId =
      data.customerId from rfl]
    cases hcid : data.customerId with
    | none =>
      show dbC.customers = db.customers
      simp only [hcid] at p7
      rw [p7, i2]
    | some cid =>
      show dbC.customers.map
        (custRev cid (mkSale data u db1.nextSaleId sub tax pe 0 0)) =
        db.customers
      simp only [hcid] at p7
      rw [p7, i2, List.map_map]
      have hcomp : (custRev cid (mkSale data u db1.nextSaleId sub tax pe 0 0) ∘
          custUpd cid pe 0 (sub - data.discountAmount.getD 0 + tax)) =
          (fun c => c) := by
        funext c
        exact hcancel cid c
      rw [hcomp]
      exact List.map_id' db.customers
  · intro cid
    have hcust : dbV.customers = db.customers := by
      rw [hdbV]
      have hobs := (voidApply_obs db1.nextSaleId reason supId actor dbC
        (mkSale data u db1.nextSaleId sub tax pe 0 0)).2.2.2
      rw [hobs]
      rw [show (mkSale data u db1.nextSaleId sub tax pe 0 0).customerId =
        data.customerId from rfl]
      cases hcid : data.customerId with
      | none =>
        show dbC.customers = db.customers
        simp only [hcid] at p7
        rw [p7, i2]
      | some cid' =>
        show dbC.customers.map
          (custRev cid' (mkSale data u db1.nextSaleId sub tax pe 0 0)) =
          db.customers
        simp only [hcid] at p7
        rw [p7, i2, List.map_map]
        have hcomp : (custRev cid' (mkSale data u db1.nextSaleId sub tax pe 0 0) ∘
            custUpd cid' pe 0 (sub - data.discountAmount.getD 0 + tax)) =
            (fun c => c) := by
          funext c
          exact hcancel cid' c
        rw [hcomp]
        exact List.map_id' db.customers
    unfold findCustomer
    rw [hcust]

/-- C2 counterexample: the round trip is NOT exact in general.
(a) Product 2 does not track inventory (stock 3): `create` never
decrements it, but the void's restoration loop adds the quantity back
for EVERY sale item with no tracking check, leaving stock 4 ≠ 3.
(b) Customer 5 (10 points, 0 spend) redeems 5 points on a 100 sale:
`create` adds the PRE-redemption total (100) to lifetime spend, while
the void subtracts the persisted POST-redemption total (95), leaving
lifetime spend 5 ≠ 0 (points return to 10, transactions to 0). -/
theorem C2_reversal_roundtrip_counterexample :
    stockOf c2DB 2 = 3 ∧
    (findProduct c2DB 2).map (fun p => p.trackInventory) = some false ∧
    stockOf (applyResult (applyCreate c2DB (create c2Data 7 c2DB))
      (voidSale 100 "damaged" 7 "1234" 9
        (applyCreate c2DB (create c2Data 7 c2DB)))) 2 = 4 ∧
    (findCustomer c2DBPoints 5).map
        (fun c => (c.loyaltyPoints, c.lifetimeSpend, c.totalTransactions)) =
      some (10, 0, 0) ∧
    (findCustomer (applyResult (applyCreate c2DBPoints (create c2DataPoints 7 c2DBPoints))
        (voidSale 100 "damaged" 7 "1234" 9
          (applyCreate c2DBPoints (create c2DataPoints 7 c2DBPoints)))) 5).map
        (fun c => (c.loyaltyPoints, c.lifetimeSpend, c.totalTransactions)) =
      some (10, 5, 0) := by
  have hpin : (("1234" : String) = "") = False := eq_false (by decide)
  refine ⟨rfl, rfl, ?_, rfl, ?_⟩
  · norm_num [hpin, stockOf, findProductAny, findProduct, findCustomer, findUser,
      findSale, applyResult, applyCreate, create, processItems, computePoints,
      persistSale, mkSale, saleStep, bumpStock, ItemData.toRow,
      updateCustomerStats, custUpd, strOrNull, strT, voidSale,
      verifySupervisorVoid, fetchCompletedSale, voidApply, voidUpd,
      restoreStock, returnStep, reverseCustomer, custRev, Rat.floor,
      c2DB, c2Data, baseData, baseLine, baseProduct, c2Untracked,
      baseSupervisor, baseCustomer, emptyDB]
  · norm_num [hpin, stockOf, findProductAny, findProduct, findCustomer, findUser,
      findSale, applyResult, applyCreate, create, processItems, computePoints,
      persistSale, mkSale, saleStep, bumpStock, ItemData.toRow,
      updateCustomerStats, custUpd, strOrNull, strT, voidSale,
      verifySupervisorVoid, fetchCompletedSale, voidApply, voidUpd,
      restoreStock, returnStep, reverseCustomer, custRev, Rat.floor,
      c2DBPoints, c2DataPoints, baseData, baseLine, baseProduct,
      baseSupervisor, baseCustomer, emptyDB]

/-- C2 witness: customer 5 buys one tracked unit at 100 with no points
redeemed; the void restores every stock level and every customer row of
the original store exactly. -/
theorem C2_reversal_roundtrip_witness :
    create c2WData 7 c3DB = .ok (c2DBW, c2SaleW) ∧
    voidSale c2SaleW.sid "adjust" 7 "1234" 9 c2DBW = .ok c2VoidW ∧
    (∀ pid, stockOf c2VoidW pid = stockOf c3DB pid) ∧
    c2VoidW.customers = c3DB.customers := by
  have hcreate : create c2WData 7 c3DB = .ok (c2DBW, c2SaleW) := by
    norm_num [c2DBW, c2SaleW, applyCreate, create, processItems, computePoints,
      persistSale, mkSale, findProduct, findCustomer, strOrNull, strT, saleStep,
      bumpStock, ItemData.toRow, updateCustomerStats, custUpd, Rat.floor,
      c2WData, c3DB, baseData, baseLine, baseProduct, baseSupervisor,
      baseCustomer, emptyDB]
  have hvoid : voidSale c2SaleW.sid "adjust" 7 "1234" 9 c2DBW = .ok c2VoidW := by
    have hpin : (("1234" : String) = "") = False := eq_false (by decide)
    norm_num [hpin, c2VoidW, c2DBW, c2SaleW, applyResult, applyCreate, create,
      processItems, computePoints, persistSale, mkSale, findProduct,
      findProductAny, findCustomer, findUser, findSale, strOrNull, strT,
      saleStep, bumpStock, ItemData.toRow, updateCustomerStats, custUpd,
      Rat.floor, voidSale, verifySupervisorVoid, fetchCompletedSale, voidApply,
      voidUpd, restoreStock, returnStep, reverseCustomer, custRev,
      c2WData, c3DB, baseData, baseLine, baseProduct, baseSupervisor,
      baseCustomer, emptyDB]
  have h := C2_reversal_roundtrip_amended c2WData 7 c3DB c2DBW c2VoidW c2SaleW
    "adjust" 7 9 "1234"
    (by
      intro itm him p hp
      rw [show c2WData.items = [baseLine] from rfl] at him
      obtain rfl := List.mem_singleton.mp him
      rw [show findProduct c3DB baseLine.productId = some baseProduct from rfl] at hp
      obtain rfl := Option.some.inj hp
      rfl)
    rfl
    ⟨by intro s hs; exact absurd hs (by simp [c3DB, emptyDB]),
     by intro r hr; exact absurd hr (by simp [c3DB, emptyDB])⟩
    hcreate hvoid
  exact ⟨hcreate, hvoid, h.1, h.2.1⟩

end AshPos
